import Mathlib

/-!
Verification development for the DAOLLM repository.

Shallow embedding of the on-chain task state machine
(src/programs/daollm/src/instructions/tro.rs, src/programs/daollm/src/state/)
and of the backend services (reasoning router, confidence estimation,
semantic cache, knowledge-graph triplet extraction) from
src/backend/src/services/.

Modelling conventions:
* u64 / u16 / u8 values are Nat; Rust saturating arithmetic is modelled
  explicitly (Nat subtraction is already truncated at 0, matching
  saturating_sub; saturating_add / saturating_mul clamp at 2^64 - 1).
* i64 values are Int; checked_add / checked_sub return Option and fail
  outside the i64 range, as in the source.
* Solana Pubkey values are Nat (opaque identifiers; Pubkey::default() is 0).
* 32-byte hashes / Merkle roots are Nat (opaque values; [0u8; 32] is 0).
* Anchor `require!(cond, err)` is a guard returning Except.error err.
* Account `constraint = ...` clauses are modelled as guards failing with
  ErrorCode.AccountConstraint.
* The Clock sysvar is passed explicitly (`now` : unix timestamp, `slot`).
-/

namespace DaoLLM

/-- Largest u64 value. -/
def u64max : Nat := 2 ^ 64 - 1

/-- u64 saturating_add. -/
def satAdd64 (a b : Nat) : Nat := min (a + b) u64max

/-- u64 saturating_mul. -/
def satMul64 (a b : Nat) : Nat := min (a * b) u64max

/-- Smallest i64 value. -/
def i64min : Int := -(2 ^ 63)

/-- Largest i64 value. -/
def i64max : Int := 2 ^ 63 - 1

/-- i64 checked_add: None on overflow. -/
def checkedAddI64 (a b : Int) : Option Int :=
  if i64min ≤ a + b ∧ a + b ≤ i64max then some (a + b) else none

/-- i64 checked_sub: None on overflow. -/
def checkedSubI64 (a b : Int) : Option Int :=
  if i64min ≤ a - b ∧ a - b ≤ i64max then some (a - b) else none

instance {ε α : Type} [DecidableEq ε] [DecidableEq α] : DecidableEq (Except ε α) :=
  fun x y =>
    match x, y with
    | Except.ok a, Except.ok b =>
        if h : a = b then isTrue (by rw [h])
        else isFalse (fun hh => by cases hh; exact h rfl)
    | Except.error e, Except.error f =>
        if h : e = f then isTrue (by rw [h])
        else isFalse (fun hh => by cases hh; exact h rfl)
    | Except.ok _, Except.error _ => isFalse (fun hh => by cases hh)
    | Except.error _, Except.ok _ => isFalse (fun hh => by cases hh)

namespace Chain

/-- Constants from src/programs/daollm/src/instructions/tro.rs. -/
def MIN_CHALLENGE_WINDOW : Int := 1800

/-- MAX_CHALLENGE_WINDOW = 7 * 24 * 3600 seconds (7 days). -/
def MAX_CHALLENGE_WINDOW : Int := 7 * 24 * 3600

/-- BPS_DENOMINATOR = 10_000. -/
def BPS_DENOMINATOR : Nat := 10000

/-- String length caps from src/programs/daollm/src/state/tro.rs. -/
def INTENT_MAX_LEN : Nat := 512

def HASH_MAX_LEN : Nat := 64

def CID_MAX_LEN : Nat := 128

def REASON_MAX_LEN : Nat := 256

def EVIDENCE_MAX_LEN : Nat := 128

/-- TaskStatus from src/programs/daollm/src/state/tro.rs. -/
inductive TaskStatus where
  | Pending
  | Reasoning
  | Verifying
  | ProofPending
  | ReadyForExecution
  | Disputed
  | Finalized
  | Cancelled
deriving DecidableEq, Repr

/-- TaskType from src/programs/daollm/src/state/tro.rs. -/
inductive TaskType where
  | SimpleQa
  | Analytical
  | MultiStep
  | Governance
  | Clearing
deriving DecidableEq, Repr

/-- TaskCriticality from src/programs/daollm/src/state/tro.rs. -/
inductive TaskCriticality where
  | Low
  | Standard
  | High
  | MissionCritical
deriving DecidableEq, Repr

/-- On-chain WorkflowClass from src/programs/daollm/src/state/tro.rs. -/
inductive WorkflowClass where
  | FastRealtime
  | Balanced
  | DeepReasoning
  | ConsensusGuarded
deriving DecidableEq, Repr

/-- ModelCapability from src/programs/daollm/src/state/node.rs. -/
inductive ModelCapability where
  | Local7B
  | Local13B
  | Local70B
  | ApiTier1
  | ApiTier2
  | Specialist
deriving DecidableEq, Repr

/-- NodeLifecycleStatus from src/programs/daollm/src/state/node.rs. -/
inductive NodeLifecycleStatus where
  | Registered
  | Active
  | Suspended
  | Slashed
  | Retired
deriving DecidableEq, Repr

/-- ChallengeStatus from src/programs/daollm/src/state/tro.rs. -/
inductive ChallengeStatus where
  | Pending
  | UnderReview
  | Resolved
  | Rejected
deriving DecidableEq, Repr

/-- ResolutionOutcome from src/programs/daollm/src/state/tro.rs. -/
inductive ResolutionOutcome where
  | Pending
  | Upheld
  | Overturned
deriving DecidableEq, Repr

/-- ProofPolicy from src/programs/daollm/src/state/tro.rs. -/
structure ProofPolicy where
  requires_zk : Bool
  requires_tee : Bool
  requires_multisig : Bool
  min_verifiers : Nat
deriving DecidableEq, Repr

/-- ErrorCode variants referenced by the modelled instructions
(src/programs/daollm/src/lib.rs).  AccountConstraint stands for an
Anchor account `constraint = ...` violation. -/
inductive ErrorCode where
  | StringTooLong
  | InvalidChallengeWindow
  | MathOverflow
  | InsufficientStake
  | NodeInactive
  | TaskNotClaimable
  | NodeBusy
  | TaskNotInReasoning
  | NodeNotAssigned
  | TaskNotVerifying
  | InvalidScore
  | InvalidProofPolicy
  | TaskNotAwaitingProof
  | TaskNotChallengeable
  | ChallengeWindowClosed
  | TaskNotDisputed
  | ChallengeAlreadyResolved
  | TaskNotExecutable
  | ChallengeWindowOpen
  | InvalidSlashAmount
  | UnauthorizedActor
  | InvalidAmount
  | InsufficientPendingRewards
  | AccountConstraint
deriving DecidableEq, Repr

/-- TroTask account from src/programs/daollm/src/state/tro.rs. -/
structure TroTask where
  task_id : Nat
  submitter : Nat
  intent : String
  task_type : TaskType
  workflow : WorkflowClass
  complexity_score : Nat
  criticality : TaskCriticality
  stake_pool : Nat
  min_node_stake : Nat
  status : TaskStatus
  requires_proof : Bool
  proof_policy : ProofPolicy
  reasoning_result : String
  verification_score_bps : Nat
  proof_hash : Nat
  cache_hit_used : Bool
  ipfs_result : String
  metadata_hash : String
  challenge_period_end : Int
  created_ts : Int
  updated_ts : Int
  last_actor : Nat
  dispute_count : Nat
deriving DecidableEq, Repr

/-- ReasoningNode account from src/programs/daollm/src/state/node.rs. -/
structure ReasoningNode where
  owner : Nat
  controller : Nat
  model_capability : ModelCapability
  workflow_affinity : WorkflowClass
  stake_amount : Nat
  base_stake_requirement : Nat
  dynamic_min_stake : Nat
  reputation_score_bps : Nat
  cache_hit_rate_bps : Nat
  verification_success_rate_bps : Nat
  throughput_score_bps : Nat
  total_inferences : Nat
  successful_inferences : Nat
  active_task_id : Nat
  last_benchmark_slot : Nat
  last_benchmark_score_bps : Nat
  last_heartbeat_ts : Int
  pending_slash_amount : Nat
  status : NodeLifecycleStatus
  pending_rewards : Nat
  reward_cycle_id : Nat
  last_reward_slot : Nat
  dynamic_multiplier_bps : Nat
  last_settlement_ts : Int
  stake_vault_bump : Nat
deriving DecidableEq, Repr

/-- InferenceResult account from src/programs/daollm/src/state/node.rs. -/
structure InferenceResult where
  proposal_id : String
  task_id : Nat
  node : Nat
  workflow : WorkflowClass
  model_capability : ModelCapability
  result_hash : String
  metadata_hash : String
  ipfs_cid : String
  timestamp : Int
  confidence_bps : Nat
  cache_hit_used : Bool
  proof_hash : Nat
deriving DecidableEq, Repr

/-- KnowledgeGraphState account from src/programs/daollm/src/state/tro.rs. -/
structure KnowledgeGraphState where
  authority : Nat
  entity_count : Nat
  relation_count : Nat
  triplet_merkle_root : Nat
  metadata_uri : String
  last_update_slot : Nat
  version : Nat
deriving DecidableEq, Repr

/-- ProofRegistry account from src/programs/daollm/src/state/tro.rs. -/
structure ProofRegistry where
  task_id : Nat
  policy : ProofPolicy
  proof_hash : Nat
  model_capability : ModelCapability
  workflow : WorkflowClass
  submitted_at : Int
deriving DecidableEq, Repr

/-- ChallengeRecord account from src/programs/daollm/src/state/tro.rs. -/
structure ChallengeRecord where
  task_id : Nat
  challenger : Nat
  stake : Nat
  status : ChallengeStatus
  outcome : ResolutionOutcome
  reason : String
  evidence_ipfs : String
  created_at : Int
  resolved_at : Int
deriving DecidableEq, Repr

/-- RewardVault account (struct fields plus the account's lamport
balance, which the handlers mutate through try_borrow_mut_lamports). -/
structure RewardVault where
  authority : Nat
  total_accrued : Nat
  total_distributed : Nat
  lamports : Nat
deriving DecidableEq, Repr

/-- StakeVault account (struct fields plus the account's lamport balance). -/
structure StakeVault where
  owner : Nat
  total_stake : Nat
  lamports : Nat
deriving DecidableEq, Repr

/-- EconomyConfig account from src/programs/daollm/src/state/tro.rs. -/
structure EconomyConfig where
  authority : Nat
  reward_vault : Nat
  base_reward_rate_bps : Nat
  high_perf_multiplier_bps : Nat
  low_perf_penalty_bps : Nat
  stake_floor : Nat
  stake_ceiling : Nat
  cycle_length_slots : Nat
  slash_pool : Nat
  last_rebalance_slot : Nat
deriving DecidableEq, Repr

/-- Anchor require!: succeed when the condition holds, otherwise the
given error. -/
def require (c : Prop) [Decidable c] (e : ErrorCode) : Except ErrorCode Unit :=
  if c then Except.ok () else Except.error e

/-- enforce_len from tro.rs. -/
def enforce_len (value : String) (limit : Nat) : Except ErrorCode Unit :=
  require (value.length ≤ limit) ErrorCode.StringTooLong

/-- ok_or(ErrorCode::MathOverflow) on a checked arithmetic result. -/
def orOverflow (x : Option Int) : Except ErrorCode Int :=
  match x with
  | none => Except.error ErrorCode.MathOverflow
  | some v => Except.ok v

/-- resolve_workflow from tro.rs. -/
def resolve_workflow (requested : WorkflowClass) (criticality : TaskCriticality)
    (complexity : Nat) : WorkflowClass :=
  match criticality with
  | TaskCriticality.MissionCritical => WorkflowClass.ConsensusGuarded
  | TaskCriticality.High =>
      if complexity > 600 then WorkflowClass.DeepReasoning else WorkflowClass.Balanced
  | TaskCriticality.Low =>
      if complexity < 200 then WorkflowClass.FastRealtime else requested
  | TaskCriticality.Standard => requested

/-- default_proof_policy from tro.rs. -/
def default_proof_policy (criticality : TaskCriticality) : ProofPolicy :=
  match criticality with
  | TaskCriticality.MissionCritical =>
      { requires_zk := true, requires_tee := true, requires_multisig := true,
        min_verifiers := 3 }
  | TaskCriticality.High =>
      { requires_zk := true, requires_tee := false, requires_multisig := true,
        min_verifiers := 2 }
  | TaskCriticality.Standard =>
      { requires_zk := false, requires_tee := false, requires_multisig := true,
        min_verifiers := 1 }
  | TaskCriticality.Low =>
      { requires_zk := false, requires_tee := false, requires_multisig := false,
        min_verifiers := 1 }

/-- submit_intent_task from tro.rs.  The task account is freshly
initialized by Anchor; the handler fills every field.  `now` is
Clock::get()?.unix_timestamp, `submitter` the signer's key. -/
def submit_intent_task (submitter : Nat) (now : Int) (task_id : Nat)
    (intent : String) (task_type : TaskType) (requested_workflow : WorkflowClass)
    (criticality : TaskCriticality) (complexity_score : Nat)
    (stake_pool : Nat) (min_node_stake : Nat) (metadata_hash : String)
    (challenge_window_secs : Int) : Except ErrorCode TroTask := do
  enforce_len intent INTENT_MAX_LEN
  enforce_len metadata_hash HASH_MAX_LEN
  require (MIN_CHALLENGE_WINDOW ≤ challenge_window_secs ∧
      challenge_window_secs ≤ MAX_CHALLENGE_WINDOW) ErrorCode.InvalidChallengeWindow
  let intent := if intent = "" then "no-intent-provided" else intent
  let requires_proof := criticality = TaskCriticality.High ∨
      criticality = TaskCriticality.MissionCritical
  let workflow := resolve_workflow requested_workflow criticality complexity_score
  let policy := default_proof_policy criticality
  let period_end ← orOverflow (checkedAddI64 now challenge_window_secs)
  Except.ok
        { task_id := task_id
          submitter := submitter
          intent := intent
          task_type := task_type
          workflow := workflow
          complexity_score := complexity_score
          criticality := criticality
          stake_pool := stake_pool
          min_node_stake := min_node_stake
          status := TaskStatus.Pending
          requires_proof := decide requires_proof
          proof_policy := policy
          reasoning_result := ""
          verification_score_bps := 0
          proof_hash := 0
          cache_hit_used := false
          ipfs_result := ""
          metadata_hash := metadata_hash
          challenge_period_end := period_end
          created_ts := now
          updated_ts := now
          last_actor := submitter
          dispute_count := 0 }

/-- register_reasoning_node from tro.rs.  `slot` is Clock::get()?.slot. -/
def register_reasoning_node (owner : Nat) (now : Int) (slot : Nat)
    (controller : Nat) (model_capability : ModelCapability)
    (workflow_affinity : WorkflowClass) (base_stake_requirement : Nat)
    (initial_stake : Nat) : Except ErrorCode ReasoningNode := do
  require (base_stake_requirement ≤ initial_stake) ErrorCode.InsufficientStake
  Except.ok
    { owner := owner
      controller := controller
      model_capability := model_capability
      workflow_affinity := workflow_affinity
      stake_amount := initial_stake
      base_stake_requirement := base_stake_requirement
      dynamic_min_stake := base_stake_requirement
      reputation_score_bps := 6000
      cache_hit_rate_bps := 0
      verification_success_rate_bps := 0
      throughput_score_bps := 0
      total_inferences := 0
      successful_inferences := 0
      active_task_id := 0
      last_benchmark_slot := 0
      last_benchmark_score_bps := 0
      last_heartbeat_ts := now
      pending_slash_amount := 0
      status := NodeLifecycleStatus.Active
      pending_rewards := 0
      reward_cycle_id := 0
      last_reward_slot := slot
      dynamic_multiplier_bps := BPS_DENOMINATOR
      last_settlement_ts := now
      stake_vault_bump := 0 }

/-- claim_task from tro.rs. -/
def claim_task (node : ReasoningNode) (task : TroTask) (task_id : Nat)
    (now : Int) : Except ErrorCode (ReasoningNode × TroTask) := do
  require (node.status = NodeLifecycleStatus.Active) ErrorCode.NodeInactive
  require (task.status = TaskStatus.Pending ∨ task.status = TaskStatus.Reasoning)
    ErrorCode.TaskNotClaimable
  require (task.min_node_stake ≤ node.stake_amount) ErrorCode.InsufficientStake
  require (node.active_task_id = 0 ∨ node.active_task_id = task_id) ErrorCode.NodeBusy
  Except.ok
    ({ node with active_task_id := task_id, last_heartbeat_ts := now },
     { task with
        status := TaskStatus.Reasoning
        workflow := resolve_workflow task.workflow task.criticality task.complexity_score
        last_actor := node.owner
        updated_ts := now })

/-- submit_reasoning from tro.rs.  The inference_result account is
freshly initialized; the handler fills every field. -/
def submit_reasoning (node : ReasoningNode) (task : TroTask) (task_id : Nat)
    (result_hash : String) (metadata_hash : String) (ipfs_cid : String)
    (confidence_bps : Nat) (cache_hit_used : Bool) (now : Int) :
    Except ErrorCode (ReasoningNode × TroTask × InferenceResult) := do
  enforce_len result_hash HASH_MAX_LEN
  enforce_len metadata_hash HASH_MAX_LEN
  enforce_len ipfs_cid CID_MAX_LEN
  require (task.status = TaskStatus.Reasoning) ErrorCode.TaskNotInReasoning
  require (node.active_task_id = task_id) ErrorCode.NodeNotAssigned
  let node :=
    { node with
        total_inferences := satAdd64 node.total_inferences 1
        successful_inferences :=
          if 7500 ≤ confidence_bps then satAdd64 node.successful_inferences 1
          else node.successful_inferences
        last_heartbeat_ts := now }
  let task :=
    { task with
        reasoning_result := result_hash
        metadata_hash := metadata_hash
        ipfs_result := ipfs_cid
        cache_hit_used := cache_hit_used
        status := TaskStatus.Verifying
        last_actor := node.owner
        updated_ts := now }
  let inference : InferenceResult :=
    { proposal_id := "intent-" ++ toString task_id
      task_id := task_id
      node := node.owner
      workflow := task.workflow
      model_capability := node.model_capability
      result_hash := result_hash
      metadata_hash := metadata_hash
      ipfs_cid := ipfs_cid
      timestamp := now
      confidence_bps := confidence_bps
      cache_hit_used := cache_hit_used
      proof_hash := 0 }
  Except.ok (node, task, inference)

/-- submit_verification from tro.rs.  `verifier` is the signer; the
knowledge_graph account is init_if_needed (an absent account arrives
zero-initialized). -/
def submit_verification (task : TroTask) (kg : KnowledgeGraphState)
    (verifier : Nat) (_task_id : Nat) (verification_score_bps : Nat)
    (entity_delta : Nat) (relation_delta : Nat) (triplet_root : Nat)
    (metadata_uri : String) (now : Int) (slot : Nat) :
    Except ErrorCode (TroTask × KnowledgeGraphState) := do
  enforce_len metadata_uri CID_MAX_LEN
  require (verification_score_bps ≤ BPS_DENOMINATOR) ErrorCode.InvalidScore
  require (task.status = TaskStatus.Verifying ∨ task.status = TaskStatus.ProofPending)
    ErrorCode.TaskNotVerifying
  let kg :=
    { kg with
        entity_count := satAdd64 kg.entity_count entity_delta
        relation_count := satAdd64 kg.relation_count relation_delta
        triplet_merkle_root := triplet_root
        metadata_uri := metadata_uri
        authority := if kg.authority = 0 then verifier else kg.authority
        last_update_slot := slot
        version := satAdd64 kg.version 1 }
  let base_window :=
    (checkedSubI64 task.challenge_period_end task.created_ts).getD MIN_CHALLENGE_WINDOW
  let adjusted_window := max base_window MIN_CHALLENGE_WINDOW
  let period_end ← orOverflow (checkedAddI64 now adjusted_window)
  Except.ok
        ({ task with
            verification_score_bps := verification_score_bps
            updated_ts := now
            last_actor := verifier
            challenge_period_end := period_end
            status :=
              if task.requires_proof then TaskStatus.ProofPending
              else TaskStatus.ReadyForExecution },
         kg)

/-- submit_proof from tro.rs.  The proof_registry account is
init_if_needed; the handler overwrites every field. -/
def submit_proof (task : TroTask) (prover : Nat) (task_id : Nat)
    (proof_hash : Nat) (policy : ProofPolicy) (model_capability : ModelCapability)
    (workflow : WorkflowClass) (now : Int) :
    Except ErrorCode (TroTask × ProofRegistry) := do
  require (0 < policy.min_verifiers) ErrorCode.InvalidProofPolicy
  require (task.status = TaskStatus.ProofPending ∨
      (¬ task.requires_proof = true ∧ task.status = TaskStatus.Verifying))
    ErrorCode.TaskNotAwaitingProof
  Except.ok
    ({ task with
        proof_hash := proof_hash
        status := TaskStatus.ReadyForExecution
        updated_ts := now
        last_actor := prover },
     { task_id := task_id
       policy := policy
       proof_hash := proof_hash
       model_capability := model_capability
       workflow := workflow
       submitted_at := now })

/-- challenge_result from tro.rs.  The challenge account is freshly
initialized. -/
def challenge_result (task : TroTask) (challenger : Nat) (task_id : Nat)
    (stake : Nat) (reason : String) (evidence_ipfs : String) (now : Int) :
    Except ErrorCode (TroTask × ChallengeRecord) := do
  enforce_len reason REASON_MAX_LEN
  enforce_len evidence_ipfs EVIDENCE_MAX_LEN
  require (0 < stake) ErrorCode.InsufficientStake
  require (task.status = TaskStatus.ReadyForExecution ∨ task.status = TaskStatus.Finalized)
    ErrorCode.TaskNotChallengeable
  require (now ≤ task.challenge_period_end) ErrorCode.ChallengeWindowClosed
  Except.ok
    ({ task with
        status := TaskStatus.Disputed
        dispute_count := satAdd64 task.dispute_count 1
        last_actor := challenger
        updated_ts := now },
     { task_id := task_id
       challenger := challenger
       stake := stake
       status := ChallengeStatus.Pending
       outcome := ResolutionOutcome.Pending
       reason := reason
       evidence_ipfs := evidence_ipfs
       created_at := now
       resolved_at := 0 })

/-- resolve_challenge from tro.rs.  Account constraints: the challenge
belongs to (task_id, challenger) and the knowledge-graph authority is
the signing dao_authority. -/
def resolve_challenge (task : TroTask) (challenge : ChallengeRecord)
    (kg : KnowledgeGraphState) (dao_authority : Nat) (task_id : Nat)
    (challenger : Nat) (resolution : ResolutionOutcome) (now : Int) :
    Except ErrorCode (TroTask × ChallengeRecord) := do
  require (challenge.task_id = task_id ∧ challenge.challenger = challenger ∧
      kg.authority = dao_authority) ErrorCode.AccountConstraint
  require (task.status = TaskStatus.Disputed) ErrorCode.TaskNotDisputed
  require (challenge.status = ChallengeStatus.Pending ∨
      challenge.status = ChallengeStatus.UnderReview) ErrorCode.ChallengeAlreadyResolved
  let challenge :=
    { challenge with
        status := ChallengeStatus.Resolved
        outcome := resolution
        resolved_at := now }
  let task := { task with updated_ts := now, last_actor := dao_authority }
  let task :=
    match resolution with
    | ResolutionOutcome.Upheld => { task with status := TaskStatus.ReadyForExecution }
    | ResolutionOutcome.Overturned =>
        { task with
            status := TaskStatus.Reasoning
            reasoning_result := ""
            verification_score_bps := 0 }
    | ResolutionOutcome.Pending => task
  Except.ok (task, challenge)

/-- finalize_task from tro.rs.  Account constraint: task.submitter is
the signing authority. -/
def finalize_task (task : TroTask) (authority : Nat) (_task_id : Nat)
    (now : Int) : Except ErrorCode TroTask := do
  require (task.submitter = authority) ErrorCode.AccountConstraint
  require (task.status = TaskStatus.ReadyForExecution) ErrorCode.TaskNotExecutable
  require (task.challenge_period_end ≤ now) ErrorCode.ChallengeWindowOpen
  Except.ok
    { task with
        status := TaskStatus.Finalized
        updated_ts := now
        last_actor := authority }

/-- slash_malicious_node from tro.rs.  Account constraints: the punished
node and its stake vault belong to node_owner; reward vault, economy
config and knowledge graph are owned by the signing dao_authority. -/
def slash_malicious_node (node : ReasoningNode) (stake_vault : StakeVault)
    (reward_vault : RewardVault) (economy : EconomyConfig)
    (kg : KnowledgeGraphState) (dao_authority : Nat) (node_owner : Nat)
    (slash_amount : Nat) (suspend : Bool) :
    Except ErrorCode (ReasoningNode × StakeVault × RewardVault × EconomyConfig) := do
  require (node.owner = node_owner ∧ stake_vault.owner = node_owner ∧
      reward_vault.authority = dao_authority ∧ economy.authority = dao_authority ∧
      kg.authority = dao_authority) ErrorCode.AccountConstraint
  require (0 < slash_amount) ErrorCode.InvalidSlashAmount
  require (node.owner = node_owner) ErrorCode.UnauthorizedActor
  require (slash_amount ≤ stake_vault.total_stake) ErrorCode.InsufficientStake
  require (slash_amount ≤ stake_vault.lamports) ErrorCode.InsufficientStake
  Except.ok
    ({ node with
        pending_slash_amount := satAdd64 node.pending_slash_amount slash_amount
        stake_amount := node.stake_amount - slash_amount
        status := if suspend then NodeLifecycleStatus.Suspended else node.status },
     { stake_vault with
        total_stake := stake_vault.total_stake - slash_amount
        lamports := stake_vault.lamports - slash_amount },
     { reward_vault with
        total_accrued := satAdd64 reward_vault.total_accrued slash_amount
        lamports := reward_vault.lamports + slash_amount },
     { economy with slash_pool := satAdd64 economy.slash_pool slash_amount })

/-- queue_reward_settlement from tro.rs.  The payer funds a system
transfer of `amount` lamports into the reward vault; the payer's own
balance is not tracked here.  Account constraints: the node belongs to
node_owner and the reward vault's authority matches the economy
config's. -/
def queue_reward_settlement (task : TroTask) (node : ReasoningNode)
    (economy : EconomyConfig) (reward_vault : RewardVault) (node_owner : Nat)
    (_task_id : Nat) (amount : Nat) (slot : Nat) :
    Except ErrorCode (TroTask × ReasoningNode × RewardVault) := do
  require (node.owner = node_owner ∧ reward_vault.authority = economy.authority)
    ErrorCode.AccountConstraint
  require (0 < amount) ErrorCode.InvalidAmount
  require (task.status = TaskStatus.ReadyForExecution ∨ task.status = TaskStatus.Finalized)
    ErrorCode.TaskNotExecutable
  require (amount ≤ task.stake_pool) ErrorCode.InsufficientStake
  let reward_vault :=
    { reward_vault with
        total_accrued := satAdd64 reward_vault.total_accrued amount
        lamports := reward_vault.lamports + amount }
  let performance_factor :=
    max (node.reputation_score_bps + node.dynamic_multiplier_bps) BPS_DENOMINATOR
  let adjusted_amount := satMul64 amount performance_factor / BPS_DENOMINATOR
  let node :=
    { node with
        pending_rewards := satAdd64 node.pending_rewards adjusted_amount
        reward_cycle_id := satAdd64 node.reward_cycle_id 1
        last_reward_slot := slot }
  let task := { task with stake_pool := task.stake_pool - amount }
  Except.ok (task, node, reward_vault)

/-- settle_reward from tro.rs.  Pays min(pending, vault lamports) to the
node owner (owner balance not tracked).  Account constraints: economy
and reward vault are owned by the signing dao_authority, node belongs
to node_owner. -/
def settle_reward (node : ReasoningNode) (economy : EconomyConfig)
    (reward_vault : RewardVault) (dao_authority : Nat) (node_owner : Nat)
    (now : Int) : Except ErrorCode (ReasoningNode × RewardVault) := do
  require (economy.authority = dao_authority ∧
      reward_vault.authority = economy.authority ∧ node.owner = node_owner)
    ErrorCode.AccountConstraint
  require (0 < node.pending_rewards) ErrorCode.InsufficientPendingRewards
  require (0 < min node.pending_rewards reward_vault.lamports)
    ErrorCode.InsufficientPendingRewards
  Except.ok
    ({ node with
        pending_rewards :=
          node.pending_rewards - min node.pending_rewards reward_vault.lamports
        last_settlement_ts := now },
     { reward_vault with
        total_distributed := satAdd64 reward_vault.total_distributed
          (min node.pending_rewards reward_vault.lamports)
        lamports :=
          reward_vault.lamports - min node.pending_rewards reward_vault.lamports })

/-- One successful application of an on-chain task instruction, viewed
as a transition of the task account (the other touched accounts are
existentially quantified). -/
inductive TaskStep : TroTask → TroTask → Prop where
  | claim {t t2 : TroTask} (node node2 : ReasoningNode) (task_id : Nat) (now : Int)
      (h : claim_task node t task_id now = Except.ok (node2, t2)) : TaskStep t t2
  | reason {t t2 : TroTask} (node node2 : ReasoningNode) (inf : InferenceResult)
      (task_id : Nat) (rh mh cid : String) (conf : Nat) (chu : Bool) (now : Int)
      (h : submit_reasoning node t task_id rh mh cid conf chu now =
        Except.ok (node2, t2, inf)) : TaskStep t t2
  | verify {t t2 : TroTask} (kg kg2 : KnowledgeGraphState)
      (verifier task_id score ed rd root : Nat) (uri : String) (now : Int) (slot : Nat)
      (h : submit_verification t kg verifier task_id score ed rd root uri now slot =
        Except.ok (t2, kg2)) : TaskStep t t2
  | proof {t t2 : TroTask} (reg : ProofRegistry) (prover task_id ph : Nat)
      (policy : ProofPolicy) (mc : ModelCapability) (w : WorkflowClass) (now : Int)
      (h : submit_proof t prover task_id ph policy mc w now = Except.ok (t2, reg)) :
      TaskStep t t2
  | challenge {t t2 : TroTask} (rec : ChallengeRecord) (challenger task_id stake : Nat)
      (reason evidence : String) (now : Int)
      (h : challenge_result t challenger task_id stake reason evidence now =
        Except.ok (t2, rec)) : TaskStep t t2
  | resolve {t t2 : TroTask} (ch ch2 : ChallengeRecord) (kg : KnowledgeGraphState)
      (dao task_id challenger : Nat) (resolution : ResolutionOutcome) (now : Int)
      (h : resolve_challenge t ch kg dao task_id challenger resolution now =
        Except.ok (t2, ch2)) : TaskStep t t2
  | finalize {t t2 : TroTask} (authority task_id : Nat) (now : Int)
      (h : finalize_task t authority task_id now = Except.ok t2) : TaskStep t t2

/-- Statuses that can only exist after the task has been in Verifying. -/
def afterVerifying (s : TaskStatus) : Prop :=
  s = TaskStatus.ProofPending ∨ s = TaskStatus.ReadyForExecution ∨
    s = TaskStatus.Disputed ∨ s = TaskStatus.Finalized

instance (s : TaskStatus) : Decidable (afterVerifying s) := by
  unfold afterVerifying; infer_instance


/-- The account state touched by the three economy instructions of the
claimed conservation law, for one reasoning node.  `other_pending` is
the (unchanged) sum of pending_rewards over all other nodes. -/
structure EconState where
  task : TroTask
  node : ReasoningNode
  stake_vault : StakeVault
  reward_vault : RewardVault
  economy : EconomyConfig
  kg : KnowledgeGraphState
  other_pending : Nat
deriving DecidableEq, Repr

/-- One invocation of an economy instruction with its arguments. -/
inductive EconOp where
  | queue (node_owner task_id amount slot : Nat)
  | settle (dao node_owner : Nat) (now : Int)
  | slash (dao node_owner slash_amount : Nat) (suspend : Bool)
deriving DecidableEq, Repr

/-- Apply an economy instruction to the bundled account state. -/
def applyEconOp (op : EconOp) (s : EconState) : Except ErrorCode EconState :=
  match op with
  | EconOp.queue node_owner task_id amount slot =>
      (queue_reward_settlement s.task s.node s.economy s.reward_vault
          node_owner task_id amount slot).map
        (fun r => { s with task := r.1, node := r.2.1, reward_vault := r.2.2 })
  | EconOp.settle dao node_owner now =>
      (settle_reward s.node s.economy s.reward_vault dao node_owner now).map
        (fun r => { s with node := r.1, reward_vault := r.2 })
  | EconOp.slash dao node_owner slash_amount suspend =>
      (slash_malicious_node s.node s.stake_vault s.reward_vault s.economy
          s.kg dao node_owner slash_amount suspend).map
        (fun r => { s with node := r.1, stake_vault := r.2.1,
                           reward_vault := r.2.2.1, economy := r.2.2.2 })

/-- The conservation equation claimed by the spec, stated over Int:
sum of pending rewards plus total_distributed equals total_accrued
minus the slash inflow accumulated in economy.slash_pool. -/
def econ_equation (s : EconState) : Prop :=
  (s.other_pending : Int) + (s.node.pending_rewards : Int) +
      (s.reward_vault.total_distributed : Int) =
    (s.reward_vault.total_accrued : Int) - (s.economy.slash_pool : Int)

instance (s : EconState) : Decidable (econ_equation s) := by
  unfold econ_equation; infer_instance

/-- Absence of u64 saturation in one economy instruction, so that the
modelled saturating arithmetic coincides with exact arithmetic. -/
def econ_no_saturation (op : EconOp) (s : EconState) : Prop :=
  match op with
  | EconOp.queue _ _ amount _ =>
      s.reward_vault.total_accrued + amount ≤ u64max ∧
      amount * max (s.node.reputation_score_bps + s.node.dynamic_multiplier_bps)
          BPS_DENOMINATOR ≤ u64max ∧
      s.node.pending_rewards +
          amount * max (s.node.reputation_score_bps + s.node.dynamic_multiplier_bps)
            BPS_DENOMINATOR / BPS_DENOMINATOR ≤ u64max
  | EconOp.settle _ _ _ =>
      s.reward_vault.total_distributed +
          min s.node.pending_rewards s.reward_vault.lamports ≤ u64max
  | EconOp.slash _ _ slash_amount _ =>
      s.reward_vault.total_accrued + slash_amount ≤ u64max ∧
      s.economy.slash_pool + slash_amount ≤ u64max

/-- For queue_reward_settlement the conservation law additionally needs
the node's performance factor to be exactly the BPS denominator. -/
def econ_queue_fair (op : EconOp) (s : EconState) : Prop :=
  match op with
  | EconOp.queue _ _ _ _ =>
      s.node.reputation_score_bps + s.node.dynamic_multiplier_bps ≤ BPS_DENOMINATOR
  | EconOp.settle _ _ _ => True
  | EconOp.slash _ _ _ _ => True

instance (op : EconOp) (s : EconState) : Decidable (econ_no_saturation op s) := by
  cases op <;> (unfold econ_no_saturation; infer_instance)

instance (op : EconOp) (s : EconState) : Decidable (econ_queue_fair op s) := by
  cases op <;> (unfold econ_queue_fair; infer_instance)

end Chain

/-! String helpers shared by the backend services.  Rust strings are
modelled through their character lists; str::to_lowercase is modelled
per character (it agrees with Rust on ASCII, which is all the claims
exercise), and byte indices coincide with character indices likewise. -/

/-- Models str::to_lowercase on a character list. -/
def lowerStr (s : List Char) : List Char := s.map Char.toLower

/-- Models str::trim on a character list. -/
def trimChars (s : List Char) : List Char :=
  ((s.dropWhile Char.isWhitespace).reverse.dropWhile Char.isWhitespace).reverse

/-- Models str::find(pattern): the first index at which pat occurs in
hay, if any.  str::contains(pattern) is the success of this search. -/
def findSub (hay pat : List Char) : Option Nat :=
  match hay with
  | [] => if pat.isEmpty then some 0 else none
  | _ :: rest =>
      if pat.isPrefixOf hay then some 0 else (findSub rest pat).map (· + 1)

/-- Models str::contains(pattern). -/
def containsSub (hay pat : List Char) : Bool := (findSub hay pat).isSome

/-- Number of (possibly overlapping) positions at which pat occurs in
hay. -/
def countOccur (hay pat : List Char) : Nat :=
  match hay with
  | [] => 0
  | _ :: rest => (if pat.isPrefixOf hay then 1 else 0) + countOccur rest pat

/-- Models str::split(sep) on a character list: n separators yield
n + 1 (possibly empty) pieces. -/
def splitChar (sep : Char) : List Char → List (List Char)
  | [] => [[]]
  | c :: rest =>
      match splitChar sep rest with
      | [] => [[c]]
      | h :: t => if c = sep then [] :: h :: t else (c :: h) :: t

/-- A straight apostrophe character (written by code point). -/
def apos : Char := Char.ofNat 39

namespace Backend

/-- ModelTier from src/backend/src/services/reasoning_service.rs. -/
inductive ModelTier where
  | Local7B
  | Local13B
  | Local70B
  | CloudAPI
deriving DecidableEq, Repr

/-- Backend WorkflowClass from src/backend/src/services/reasoning_service.rs. -/
inductive WorkflowClass where
  | ExpressLocal
  | Standard
  | HighPrecision
  | MissionCritical
deriving DecidableEq, Repr

/-- The strategy_matrix HashMap built in ModelRouter::new; lookup of a
missing key yields none. -/
def strategy_matrix (w : WorkflowClass) (bucket : Nat) : Option ModelTier :=
  match w, bucket with
  | WorkflowClass.ExpressLocal, 0 => some ModelTier.Local7B
  | WorkflowClass.ExpressLocal, 1 => some ModelTier.Local7B
  | WorkflowClass.ExpressLocal, 2 => some ModelTier.Local13B
  | WorkflowClass.ExpressLocal, 3 => some ModelTier.Local13B
  | WorkflowClass.Standard, 0 => some ModelTier.Local7B
  | WorkflowClass.Standard, 1 => some ModelTier.Local13B
  | WorkflowClass.Standard, 2 => some ModelTier.Local13B
  | WorkflowClass.Standard, 3 => some ModelTier.Local70B
  | WorkflowClass.HighPrecision, 0 => some ModelTier.Local13B
  | WorkflowClass.HighPrecision, 1 => some ModelTier.Local70B
  | WorkflowClass.HighPrecision, 2 => some ModelTier.Local70B
  | WorkflowClass.HighPrecision, 3 => some ModelTier.CloudAPI
  | WorkflowClass.MissionCritical, 0 => some ModelTier.CloudAPI
  | WorkflowClass.MissionCritical, 1 => some ModelTier.CloudAPI
  | WorkflowClass.MissionCritical, 2 => some ModelTier.CloudAPI
  | WorkflowClass.MissionCritical, 3 => some ModelTier.CloudAPI
  | _, _ => none

/-- The complexity-to-bucket match in ModelRouter::route:
0..=2500 gives 0, 2501..=5000 gives 1, 5001..=7500 gives 2, more
gives 3. -/
def complexity_bucket (complexity_score : Nat) : Nat :=
  if complexity_score ≤ 2500 then 0
  else if complexity_score ≤ 5000 then 1
  else if complexity_score ≤ 7500 then 2
  else 3

/-- Fallback chain from ModelRouter::find_fallback. -/
def fallback_order : List ModelTier :=
  [ModelTier.Local7B, ModelTier.Local13B, ModelTier.Local70B, ModelTier.CloudAPI]

/-- ModelRouter::find_fallback: the first available tier different from
the preferred one, otherwise the preferred tier.  `status` is the
model_status map as a total function (a missing key defaults to
available, as in the source's unwrap_or(true)). -/
def find_fallback (preferred : ModelTier) (status : ModelTier → Bool) : ModelTier :=
  match fallback_order.find? (fun tier => tier != preferred && status tier) with
  | some tier => tier
  | none => preferred

/-- ModelRouter::route, reduced to its tier decision: bucket the
complexity, look up the strategy matrix (defaulting to Local13B), and
fall back when the base tier is unavailable. -/
def route (w : WorkflowClass) (complexity_score : Nat)
    (status : ModelTier → Bool) : ModelTier :=
  let bucket := complexity_bucket complexity_score
  let base_tier := (strategy_matrix w bucket).getD ModelTier.Local13B
  if status base_tier then base_tier else find_fallback base_tier status

/-- The literal "I'm not sure" (with a straight apostrophe). -/
def phraseNotSure : String := String.mk ('I' :: apos :: "m not sure".data)

/-- The literal "I don't know" (with a straight apostrophe). -/
def phraseDontKnow : String :=
  String.mk ('I' :: ' ' :: 'd' :: 'o' :: 'n' :: apos :: "t know".data)

/-- uncertain_phrases from ReasoningService::estimate_confidence. -/
def uncertain_phrases : List String :=
  [phraseNotSure, phraseDontKnow, "possibly", "might be"]

/-- ReasoningService::estimate_confidence.  The length test models
response.len() (bytes; identical to the character count on ASCII), and
each phrase is searched verbatim in the lowercased response, exactly as
in the source. -/
def estimate_confidence (tier : ModelTier) (response : String) : Nat :=
  let base : Nat :=
    match tier with
    | ModelTier.Local7B => 6000
    | ModelTier.Local13B => 7500
    | ModelTier.Local70B => 8500
    | ModelTier.CloudAPI => 9500
  let confidence := if response.length < 50 then base - 1000 else base
  let confidence := uncertain_phrases.foldl
    (fun acc phrase =>
      if containsSub (lowerStr response.data) phrase.data then acc - 500 else acc)
    confidence
  min confidence 10000

end Backend

namespace Cache

/-- CacheCategory from src/backend/src/services/semantic_cache_service.rs. -/
inductive CacheCategory where
  | Factual
  | Technical
  | GeneralQA
  | PriceData
  | TimeSensitive
deriving DecidableEq, Repr

/-- CacheEntry from src/backend/src/services/semantic_cache_service.rs.
Timestamps are unix seconds (Int); the metadata map is an association
list. -/
structure CacheEntry where
  query : String
  query_hash : String
  response : String
  response_hash : String
  node_pubkey : String
  signature : String
  model_used : String
  confidence_bps : Nat
  category : CacheCategory
  created_at : Int
  expires_at : Int
  hit_count : Nat
  metadata : List (String × String)
deriving DecidableEq, Repr

/-- CacheEntry::is_expired at the evaluation instant `now`
(Utc::now() > expires_at). -/
def is_expired (e : CacheEntry) (now : Int) : Bool := e.expires_at < now

/-- compute_query_hash hashes the trimmed, lowercased query with
SHA-256; the hash is modelled by the normalized string itself (an
injective stand-in for the digest). -/
def compute_query_hash (query : String) : String :=
  String.mk (lowerStr (trimChars query.data))

/-- split_whitespace on a string: maximal whitespace-free words. -/
def splitWhitespace (s : String) : List String :=
  (s.split Char.isWhitespace).filter (fun w => w ≠ "")

/-- compute_similarity: the Jaccard similarity of the lowercased word
sets of the two queries.  The source computes the ratio in f64; it is
modelled exactly in ℚ. -/
def compute_similarity (query1 query2 : String) : ℚ :=
  let q1_words := (splitWhitespace (String.mk (lowerStr query1.data))).dedup
  let q2_words := (splitWhitespace (String.mk (lowerStr query2.data))).dedup
  if q1_words = [] ∨ q2_words = [] then 0
  else
    let intersection := (q1_words.filter (fun w => q2_words.contains w)).length
    let union := q1_words.length +
      (q2_words.filter (fun w => ¬ q1_words.contains w)).length
    if union = 0 then 0 else (intersection : ℚ) / (union : ℚ)

/-- SemanticCacheService::semantic_search over the local cache: the
best non-expired entry with similarity at least the configured
threshold.  The local HashMap is modelled as an association list keyed
by query hash; iteration follows list order. -/
def search_step (threshold : ℚ) (query : String) (now : Int)
    (best : Option (ℚ × CacheEntry)) (entry : CacheEntry) :
    Option (ℚ × CacheEntry) :=
  if is_expired entry now then best
  else
    let similarity := compute_similarity query entry.query
    if threshold ≤ similarity then
      match best with
      | none => some (similarity, entry)
      | some (best_sim, _) =>
          if best_sim < similarity then some (similarity, entry) else best
    else best

def semantic_search (localCache : List (String × CacheEntry)) (threshold : ℚ)
    (query : String) (now : Int) : Option CacheEntry :=
  ((localCache.map Prod.snd).foldl (search_step threshold query now) none).map
    Prod.snd

/-- SemanticCacheService::lookup with the local cache enabled and no
Redis connection (the distributed branch is skipped): exact-hash lookup
first, refusing expired entries, then the similarity search. -/
def lookup (localCache : List (String × CacheEntry)) (threshold : ℚ)
    (query : String) (now : Int) : Option CacheEntry :=
  let query_hash := compute_query_hash query
  let exact :=
    match localCache.find? (fun p => p.1 == query_hash) with
    | some p => if is_expired p.2 now then none else some p.2
    | none => none
  match exact with
  | some entry => some entry
  | none =>
      match semantic_search localCache threshold query now with
      | some entry =>
          if threshold ≤ compute_similarity query entry.query then some entry
          else none
      | none => none

end Cache

namespace KG

/-- TripletSource from src/backend/src/services/knowledge_graph_service.rs. -/
inductive TripletSource where
  | LLMExtraction
  | ExternalImport
  | HumanVerified
  | Derived
deriving DecidableEq, Repr

/-- Triplet from knowledge_graph_service.rs; the wall-clock created_at
and verified_at fields are omitted. -/
structure Triplet where
  subject : String
  predicate : String
  object : String
  confidence : Nat
  source : TripletSource
deriving DecidableEq, Repr

/-- The shared body of the extract_*_pattern helpers: find the pattern
in the lowercased sentence, slice the original sentence around the
match, trim both parts, and build a triplet when both are non-empty. -/
def slice_at_pattern (sentence : List Char) (predicate : String)
    (confidence : Nat) (pattern : List Char) : Option Triplet :=
  match findSub (lowerStr sentence) pattern with
  | some idx =>
      let subject := trimChars (sentence.take idx)
      let object := trimChars (sentence.drop (idx + pattern.length))
      if subject ≠ [] ∧ object ≠ [] then
        some { subject := String.mk subject, predicate := predicate,
               object := String.mk object, confidence := confidence,
               source := TripletSource.LLMExtraction }
      else none
  | none => none

/-- KnowledgeGraphService::extract_is_pattern. -/
def extract_is_pattern (sentence : List Char) : Option Triplet :=
  [" is ", " is a ", " is an ", " are "].findSome?
    (fun p => slice_at_pattern sentence "is_a" 7000 p.data)

/-- KnowledgeGraphService::extract_location_pattern. -/
def extract_location_pattern (sentence : List Char) : Option Triplet :=
  [" located in ", " is in ", " in ", " capital of "].findSome?
    (fun p => slice_at_pattern sentence "located_in" 6500 p.data)

/-- KnowledgeGraphService::extract_has_pattern. -/
def extract_has_pattern (sentence : List Char) : Option Triplet :=
  [" has ", " have ", " contains "].findSome?
    (fun p => slice_at_pattern sentence "has" 6000 p.data)

/-- KnowledgeGraphService::extract_equals_pattern: a raw search for
the character = on the original sentence, then the " equals " pattern
on the lowercased sentence. -/
def extract_equals_pattern (sentence : List Char) : Option Triplet :=
  let viaEq :=
    match findSub sentence ['='] with
    | some idx =>
        let subject := trimChars (sentence.take idx)
        let object := trimChars (sentence.drop (idx + 1))
        if subject ≠ [] ∧ object ≠ [] then
          some { subject := String.mk subject, predicate := "equal_to",
                 object := String.mk object, confidence := 9000,
                 source := TripletSource.LLMExtraction }
        else none
    | none => none
  match viaEq with
  | some t => some t
  | none => slice_at_pattern sentence "equal_to" 9000 " equals ".data

/-- KnowledgeGraphService::extract_triplets: split on the period
character, trim each sentence, skip empty ones, and push the result of
every one of the four extraction helpers. -/
def extract_triplets (text : String) : List Triplet :=
  (splitChar '.' text.data).foldl
    (fun triplets sentence =>
      let s := trimChars sentence
      if s = [] then triplets
      else
        triplets ++ (extract_is_pattern s).toList
          ++ (extract_location_pattern s).toList
          ++ (extract_has_pattern s).toList
          ++ (extract_equals_pattern s).toList)
    []

end KG

/-! Spec-side definitions: these follow the wording of the spec claims
(and of their amended forms), for comparison with the definitions
translated from the source above. -/

namespace Backend

/-- The 4x4 routing matrix exactly as written in claim C5, indexed by
workflow row and bucket column 0..3 (entries beyond column 3 repeat the
last column; the bucket argument is always clamped to 0..3). -/
def claim_matrix (w : WorkflowClass) (bucket : Nat) : ModelTier :=
  match w, bucket with
  | WorkflowClass.ExpressLocal, 0 => ModelTier.Local7B
  | WorkflowClass.ExpressLocal, 1 => ModelTier.Local7B
  | WorkflowClass.ExpressLocal, 2 => ModelTier.Local13B
  | WorkflowClass.ExpressLocal, _ => ModelTier.Local13B
  | WorkflowClass.Standard, 0 => ModelTier.Local7B
  | WorkflowClass.Standard, 1 => ModelTier.Local13B
  | WorkflowClass.Standard, 2 => ModelTier.Local13B
  | WorkflowClass.Standard, _ => ModelTier.Local70B
  | WorkflowClass.HighPrecision, 0 => ModelTier.Local13B
  | WorkflowClass.HighPrecision, 1 => ModelTier.Local70B
  | WorkflowClass.HighPrecision, 2 => ModelTier.Local70B
  | WorkflowClass.HighPrecision, _ => ModelTier.CloudAPI
  | WorkflowClass.MissionCritical, _ => ModelTier.CloudAPI

/-- The bucket formula written in claim C5: complexity divided by 2500,
rounded down, clamped to 0..3. -/
def claim_bucket (complexity : Nat) : Nat := min (complexity / 2500) 3

/-- The tier claim C5 predicts when all tiers are available. -/
def claim_route (w : WorkflowClass) (complexity : Nat) : ModelTier :=
  claim_matrix w (claim_bucket complexity)

/-- The amended bucket formula: min ((complexity - 1) / 2500) 3 with
Nat (truncated) subtraction, so 0..2500 give bucket 0, 2501..5000 give
1, 5001..7500 give 2 and anything larger gives 3 - the multiples of
2500 fall in the lower bucket, unlike claim C5's formula. -/
def amended_bucket (complexity : Nat) : Nat := min ((complexity - 1) / 2500) 3

/-- The confidence formula written in claim C6: baseline by tier, minus
1000 for a short result, minus 500 per occurrence of each uncertainty
phrase matched case-insensitively, clamped to 0..10000 (the lower clamp
is Nat truncated subtraction). -/
def claim_confidence (tier : ModelTier) (response : String) : Nat :=
  let base : Nat :=
    match tier with
    | ModelTier.Local7B => 6000
    | ModelTier.Local13B => 7500
    | ModelTier.Local70B => 8500
    | ModelTier.CloudAPI => 9500
  let c1 := if response.length < 50 then base - 1000 else base
  let c2 := uncertain_phrases.foldl
    (fun acc p => acc - 500 * countOccur (lowerStr response.data) (lowerStr p.data))
    c1
  min c2 10000

/-- The amended confidence formula: 500 is subtracted once for every
phrase of the list that occurs at least once, the phrase being matched
verbatim against the lowercased result (so the two phrases containing
an uppercase I can never match). -/
def amended_confidence (tier : ModelTier) (response : String) : Nat :=
  let base : Nat :=
    match tier with
    | ModelTier.Local7B => 6000
    | ModelTier.Local13B => 7500
    | ModelTier.Local70B => 8500
    | ModelTier.CloudAPI => 9500
  let c1 := if response.length < 50 then base - 1000 else base
  min (c1 - 500 * (uncertain_phrases.filter
    (fun p => containsSub (lowerStr response.data) p.data)).length) 10000

end Backend

namespace KG

/-- The extraction rule set written in claim C8, in order: pattern
list, predicate, confidence. -/
def claim_rules : List (List String × String × Nat) :=
  [([" is a ", " is an ", " are "], "is_a", 7000),
   ([" located in ", " is in ", " capital of "], "located_in", 6500),
   ([" has ", " have ", " contains "], "has", 6000),
   (["=", " equals "], "equal_to", 9000)]

/-- Apply one claimed rule to a sentence: the first pattern of the rule
found in the sentence produces the triplet. -/
def claim_rule_apply (s : List Char) (r : List String × String × Nat) :
    Option Triplet :=
  r.1.findSome? (fun p => slice_at_pattern s r.2.1 r.2.2 p.data)

/-- The extraction function written in claim C8: split on periods and,
per non-empty sentence, emit only the first matching rule's triplet. -/
def claim_extract (text : String) : List Triplet :=
  (splitChar '.' text.data).foldl
    (fun triplets sentence =>
      let s := trimChars sentence
      if s = [] then triplets
      else triplets ++ (claim_rules.findSome? (claim_rule_apply s)).toList)
    []

/-- The amended rule set: the source's pattern lists (bare " is " first
in the is_a rule, bare " in " in the located_in rule), each pattern
flagged with whether it is searched in the lowercased sentence (true)
or in the raw sentence (false, only the = pattern). -/
def amended_rules : List (List (String × Bool) × String × Nat) :=
  [([(" is ", true), (" is a ", true), (" is an ", true), (" are ", true)],
      "is_a", 7000),
   ([(" located in ", true), (" is in ", true), (" in ", true),
      (" capital of ", true)], "located_in", 6500),
   ([(" has ", true), (" have ", true), (" contains ", true)], "has", 6000),
   ([("=", false), (" equals ", true)], "equal_to", 9000)]

/-- Slicing for the amended rules: find the pattern (lowercased or raw
search per its flag), slice and trim around the match, and keep the
triplet when both parts are non-empty. -/
def amended_slice (s : List Char) (predicate : String) (confidence : Nat)
    (p : String × Bool) : Option Triplet :=
  match findSub (if p.2 then lowerStr s else s) p.1.data with
  | some idx =>
      let subject := trimChars (s.take idx)
      let object := trimChars (s.drop (idx + p.1.data.length))
      if subject ≠ [] ∧ object ≠ [] then
        some { subject := String.mk subject, predicate := predicate,
               object := String.mk object, confidence := confidence,
               source := TripletSource.LLMExtraction }
      else none
  | none => none

/-- The amended extraction: every rule family contributes its first
matching pattern's triplet, appended in rule order for each non-empty
sentence. -/
def amended_extract (text : String) : List Triplet :=
  (splitChar '.' text.data).flatMap
    (fun sentence =>
      let s := trimChars sentence
      if s = [] then []
      else amended_rules.flatMap
        (fun r => (r.1.findSome? (amended_slice s r.2.1 r.2.2)).toList))

end KG

/-! Concrete account states used by the witnesses and counterexamples. -/

namespace Chain

/-- A task record with neutral values, specialized below. -/
def taskZero : TroTask :=
  { task_id := 0, submitter := 0, intent := "", task_type := TaskType.SimpleQa,
    workflow := WorkflowClass.Balanced, complexity_score := 0,
    criticality := TaskCriticality.Standard, stake_pool := 0,
    min_node_stake := 0, status := TaskStatus.Pending, requires_proof := false,
    proof_policy := { requires_zk := false, requires_tee := false,
                      requires_multisig := true, min_verifiers := 1 },
    reasoning_result := "", verification_score_bps := 0, proof_hash := 0,
    cache_hit_used := false, ipfs_result := "", metadata_hash := "",
    challenge_period_end := 0, created_ts := 0, updated_ts := 0,
    last_actor := 0, dispute_count := 0 }

/-- A freshly registered active node with neutral values. -/
def nodeZero : ReasoningNode :=
  { owner := 0, controller := 0, model_capability := ModelCapability.Local7B,
    workflow_affinity := WorkflowClass.Balanced, stake_amount := 0,
    base_stake_requirement := 0, dynamic_min_stake := 0,
    reputation_score_bps := 6000, cache_hit_rate_bps := 0,
    verification_success_rate_bps := 0, throughput_score_bps := 0,
    total_inferences := 0, successful_inferences := 0, active_task_id := 0,
    last_benchmark_slot := 0, last_benchmark_score_bps := 0,
    last_heartbeat_ts := 0, pending_slash_amount := 0,
    status := NodeLifecycleStatus.Active, pending_rewards := 0,
    reward_cycle_id := 0, last_reward_slot := 0,
    dynamic_multiplier_bps := 10000, last_settlement_ts := 0,
    stake_vault_bump := 0 }

/-- A zero-initialized knowledge-graph account. -/
def kgZero : KnowledgeGraphState :=
  { authority := 0, entity_count := 0, relation_count := 0,
    triplet_merkle_root := 0, metadata_uri := "", last_update_slot := 0,
    version := 0 }

/-- C1 witness run: task 5 goes Pending, Reasoning, Verifying,
ReadyForExecution, Finalized. -/
def c1Task0 : TroTask :=
  { taskZero with task_id := 5, submitter := 1, intent := "demo",
                  complexity_score := 300, min_node_stake := 10,
                  metadata_hash := "m", challenge_period_end := 1800,
                  last_actor := 1 }

def c1Node : ReasoningNode :=
  { nodeZero with owner := 2, controller := 2, stake_amount := 100,
                  base_stake_requirement := 10, dynamic_min_stake := 10 }

def c1Node1 : ReasoningNode :=
  { c1Node with active_task_id := 5, last_heartbeat_ts := 10 }

def c1Task1 : TroTask :=
  { c1Task0 with status := TaskStatus.Reasoning, last_actor := 2, updated_ts := 10 }

def c1Node2 : ReasoningNode :=
  { c1Node1 with total_inferences := 1, successful_inferences := 1,
                 last_heartbeat_ts := 20 }

def c1Task2 : TroTask :=
  { c1Task1 with reasoning_result := "r", metadata_hash := "m2",
                 ipfs_result := "c", status := TaskStatus.Verifying,
                 updated_ts := 20 }

def c1Inf : InferenceResult :=
  { proposal_id := "intent-5", task_id := 5, node := 2,
    workflow := WorkflowClass.Balanced,
    model_capability := ModelCapability.Local7B, result_hash := "r",
    metadata_hash := "m2", ipfs_cid := "c", timestamp := 20,
    confidence_bps := 8000, cache_hit_used := false, proof_hash := 0 }

def c1Kg1 : KnowledgeGraphState := { kgZero with authority := 3, version := 1 }

def c1Task3 : TroTask :=
  { c1Task2 with verification_score_bps := 9000, updated_ts := 30,
                 last_actor := 3, challenge_period_end := 1830,
                 status := TaskStatus.ReadyForExecution }

def c1Task4 : TroTask :=
  { c1Task3 with status := TaskStatus.Finalized, updated_ts := 2000,
                 last_actor := 1 }

/-- C2 counterexample run: node 2 claims task 7, then node 3 claims the
same task while it is in Reasoning. -/
def c2Task0 : TroTask := { taskZero with task_id := 7, submitter := 1, min_node_stake := 10 }

def c2NodeA : ReasoningNode := { nodeZero with owner := 2, stake_amount := 50 }

def c2NodeB : ReasoningNode := { nodeZero with owner := 3, stake_amount := 60 }

def c2NodeA1 : ReasoningNode :=
  { c2NodeA with active_task_id := 7, last_heartbeat_ts := 5 }

def c2TaskR : TroTask :=
  { c2Task0 with status := TaskStatus.Reasoning, last_actor := 2, updated_ts := 5 }

def c2NodeB1 : ReasoningNode :=
  { c2NodeB with active_task_id := 7, last_heartbeat_ts := 6 }

def c2TaskR2 : TroTask := { c2TaskR with last_actor := 3, updated_ts := 6 }

/-- C3 counterexample state: a fresh node (reputation 6000 bps, dynamic
multiplier 10000 bps) and an executable task with a 10000-lamport stake
pool; all vault counters start at zero, so the claimed equation holds. -/
def c3S0 : EconState :=
  { task := { taskZero with task_id := 9, status := TaskStatus.ReadyForExecution,
                            stake_pool := 10000 },
    node := { nodeZero with owner := 2, stake_amount := 100 },
    stake_vault := { owner := 2, total_stake := 100, lamports := 100 },
    reward_vault := { authority := 4, total_accrued := 0,
                      total_distributed := 0, lamports := 0 },
    economy := { authority := 4, reward_vault := 0, base_reward_rate_bps := 500,
                 high_perf_multiplier_bps := 1000, low_perf_penalty_bps := 100,
                 stake_floor := 0, stake_ceiling := 0, cycle_length_slots := 0,
                 slash_pool := 0, last_rebalance_slot := 0 },
    kg := { kgZero with authority := 4 },
    other_pending := 0 }

def c3Op : EconOp := EconOp.queue 2 9 10000 1

def c3S1 : EconState :=
  match applyEconOp c3Op c3S0 with
  | Except.ok s => s
  | Except.error _ => c3S0

/-- C3 witness state: 5 pending lamports against a vault holding 3. -/
def c3WS0 : EconState :=
  { c3S0 with node := { nodeZero with owner := 2, pending_rewards := 5 },
              reward_vault := { authority := 4, total_accrued := 5,
                                total_distributed := 0, lamports := 3 } }

def c3WOp : EconOp := EconOp.settle 4 2 50

def c3WS1 : EconState :=
  match applyEconOp c3WOp c3WS0 with
  | Except.ok s => s
  | Except.error _ => c3WS0

/-- C4 counterexample run: a task submitted with the maximal 7-day
window, claimed and reasoned at time 0, then verified at time 1, which
re-bases the window and pushes challenge_period_end one second past
created_ts + 7 days. -/
def c4Task0 : TroTask :=
  { taskZero with task_id := 9, submitter := 1, intent := "demo",
                  min_node_stake := 10, metadata_hash := "m",
                  challenge_period_end := 604800, last_actor := 1 }

def c4Node : ReasoningNode := { nodeZero with owner := 2, stake_amount := 100 }

def c4Node1 : ReasoningNode := { c4Node with active_task_id := 9 }

def c4Task1 : TroTask :=
  { c4Task0 with status := TaskStatus.Reasoning, last_actor := 2 }

def c4Node2 : ReasoningNode :=
  { c4Node1 with total_inferences := 1, successful_inferences := 1 }

def c4Task2 : TroTask :=
  { c4Task1 with reasoning_result := "r", ipfs_result := "c",
                 status := TaskStatus.Verifying }

def c4Inf : InferenceResult :=
  { proposal_id := "intent-9", task_id := 9, node := 2,
    workflow := WorkflowClass.Balanced,
    model_capability := ModelCapability.Local7B, result_hash := "r",
    metadata_hash := "m", ipfs_cid := "c", timestamp := 0,
    confidence_bps := 8000, cache_hit_used := false, proof_hash := 0 }

def c4Kg1 : KnowledgeGraphState := { kgZero with authority := 3, version := 1 }

def c4Task3 : TroTask :=
  { c4Task2 with verification_score_bps := 9000, updated_ts := 1,
                 last_actor := 3, challenge_period_end := 604801,
                 status := TaskStatus.ReadyForExecution }

/-- C9 witness state: a Verifying task that does not require a proof
and has never been scored. -/
def c9Task : TroTask := { taskZero with task_id := 11, status := TaskStatus.Verifying }

def c9Policy : ProofPolicy :=
  { requires_zk := false, requires_tee := false, requires_multisig := false,
    min_verifiers := 1 }

end Chain

namespace Cache

/-- C7 counterexample entry: expires exactly at time 100. -/
def c7Entry : CacheEntry :=
  { query := "q", query_hash := "q", response := "r", response_hash := "rh",
    node_pubkey := "n", signature := "s", model_used := "m",
    confidence_bps := 9000, category := CacheCategory.Factual,
    created_at := 0, expires_at := 100, hit_count := 0, metadata := [] }

end Cache

namespace Backend

/-- C6 counterexample response: two occurrences of one uncertainty
phrase in a result longer than 50 bytes. -/
def c6Resp : String :=
  "possibly yes or possibly no, this answer is rather long indeed"

end Backend

/-! Theorems: helper lemmas and claim theorems follow all definitions. -/

namespace Chain

/-- Reduction of bind on a successful Except. -/
theorem ok_bind {α β : Type} (x : α) (f : α → Except ErrorCode β) :
    (Except.ok x >>= f) = f x := rfl

/-- Reduction of bind on a failed Except. -/
theorem error_bind {α β : Type} (e : ErrorCode) (f : α → Except ErrorCode β) :
    ((Except.error e : Except ErrorCode α) >>= f) = Except.error e := rfl

/-- Characterization of a successful bind through orOverflow. -/
theorem orOverflow_bind {β : Type} (x : Option Int) (f : Int → Except ErrorCode β)
    (y : β) :
    (orOverflow x >>= f = Except.ok y) ↔ ∃ v, x = some v ∧ f v = Except.ok y := by
  cases x <;> simp [orOverflow, ok_bind, error_bind]

/-- Status facts forced by a successful claim_task. -/
theorem claim_task_ok_status {node node2 : ReasoningNode} {t t2 : TroTask}
    {task_id : Nat} {now : Int}
    (h : claim_task node t task_id now = Except.ok (node2, t2)) :
    (t.status = TaskStatus.Pending ∨ t.status = TaskStatus.Reasoning) ∧
      t2.status = TaskStatus.Reasoning := by
  unfold claim_task require at h
  split_ifs at h <;> simp_all [ok_bind, error_bind]
  obtain ⟨h1, h2⟩ := h
  subst h2
  rfl

/-- Status facts forced by a successful submit_reasoning. -/
theorem submit_reasoning_ok_status {node node2 : ReasoningNode} {t t2 : TroTask}
    {inf : InferenceResult} {task_id : Nat} {rh mh cid : String}
    {conf : Nat} {chu : Bool} {now : Int}
    (h : submit_reasoning node t task_id rh mh cid conf chu now =
      Except.ok (node2, t2, inf)) :
    t.status = TaskStatus.Reasoning ∧ t2.status = TaskStatus.Verifying := by
  unfold submit_reasoning enforce_len require at h
  split_ifs at h <;> simp_all [ok_bind, error_bind]
  all_goals obtain ⟨h1, h2, h3⟩ := h
  all_goals subst h2
  all_goals rfl

/-- Status facts forced by a successful submit_verification. -/
theorem submit_verification_ok_status {t t2 : TroTask}
    {kg kg2 : KnowledgeGraphState} {verifier task_id score ed rd root : Nat}
    {uri : String} {now : Int} {slot : Nat}
    (h : submit_verification t kg verifier task_id score ed rd root uri now slot =
      Except.ok (t2, kg2)) :
    (t.status = TaskStatus.Verifying ∨ t.status = TaskStatus.ProofPending) ∧
      (t2.status = TaskStatus.ProofPending ∨ t2.status = TaskStatus.ReadyForExecution) := by
  unfold submit_verification enforce_len require at h
  split_ifs at h <;> simp_all [ok_bind, error_bind, orOverflow_bind]
  all_goals obtain ⟨v, hv, h2, h3⟩ := h
  all_goals subst h2
  all_goals simp

/-- Status facts forced by a successful submit_proof. -/
theorem submit_proof_ok_status {t t2 : TroTask} {reg : ProofRegistry}
    {prover task_id ph : Nat} {policy : ProofPolicy}
    {mc : ModelCapability} {w : WorkflowClass} {now : Int}
    (h : submit_proof t prover task_id ph policy mc w now = Except.ok (t2, reg)) :
    (t.status = TaskStatus.ProofPending ∨ t.status = TaskStatus.Verifying) ∧
      t2.status = TaskStatus.ReadyForExecution := by
  unfold submit_proof require at h
  split_ifs at h with hp hs <;> simp_all [ok_bind, error_bind]
  obtain ⟨h1, h2⟩ := h
  subst h1
  exact ⟨by tauto, rfl⟩

/-- Status facts forced by a successful challenge_result. -/
theorem challenge_result_ok_status {t t2 : TroTask} {rec : ChallengeRecord}
    {challenger task_id stake : Nat} {reason evidence : String} {now : Int}
    (h : challenge_result t challenger task_id stake reason evidence now =
      Except.ok (t2, rec)) :
    (t.status = TaskStatus.ReadyForExecution ∨ t.status = TaskStatus.Finalized) ∧
      t2.status = TaskStatus.Disputed := by
  unfold challenge_result enforce_len require at h
  split_ifs at h <;> simp_all [ok_bind, error_bind]
  obtain ⟨h1, h2⟩ := h
  subst h1
  rfl

/-- Status facts forced by a successful resolve_challenge. -/
theorem resolve_challenge_ok_status {t t2 : TroTask}
    {ch ch2 : ChallengeRecord} {kg : KnowledgeGraphState}
    {dao task_id challenger : Nat} {resolution : ResolutionOutcome} {now : Int}
    (h : resolve_challenge t ch kg dao task_id challenger resolution now =
      Except.ok (t2, ch2)) :
    t.status = TaskStatus.Disputed ∧
      (t2.status = TaskStatus.ReadyForExecution ∨ t2.status = TaskStatus.Reasoning ∨
        t2.status = TaskStatus.Disputed) := by
  unfold resolve_challenge require at h
  cases resolution <;> split_ifs at h <;> simp_all [ok_bind, error_bind]
  all_goals obtain ⟨h1, h2⟩ := h
  all_goals subst h1
  all_goals simp

/-- Status facts forced by a successful finalize_task. -/
theorem finalize_task_ok_status {t t2 : TroTask} {authority task_id : Nat}
    {now : Int} (h : finalize_task t authority task_id now = Except.ok t2) :
    t.status = TaskStatus.ReadyForExecution ∧ t2.status = TaskStatus.Finalized := by
  unfold finalize_task require at h
  split_ifs at h <;> simp_all [ok_bind, error_bind]
  subst h
  rfl

/-- A step into an after-Verifying status starts from Verifying or from
another after-Verifying status. -/
theorem taskStep_afterVerifying {t t2 : TroTask} (h : TaskStep t t2)
    (h2 : afterVerifying t2.status) :
    t.status = TaskStatus.Verifying ∨ afterVerifying t.status := by
  cases h with
  | claim node node2 task_id now h =>
      rcases claim_task_ok_status h with ⟨_, h1⟩
      simp [afterVerifying, h1] at h2
  | reason node node2 inf task_id rh mh cid conf chu now h =>
      rcases submit_reasoning_ok_status h with ⟨_, h1⟩
      simp [afterVerifying, h1] at h2
  | verify kg kg2 verifier task_id score ed rd root uri now slot h =>
      rcases submit_verification_ok_status h with ⟨h0, _⟩
      rcases h0 with h0 | h0
      · exact Or.inl h0
      · exact Or.inr (Or.inl h0)
  | proof reg prover task_id ph policy mc w now h =>
      rcases submit_proof_ok_status h with ⟨h0, _⟩
      rcases h0 with h0 | h0
      · exact Or.inr (Or.inl h0)
      · exact Or.inl h0
  | challenge rec challenger task_id stake reason evidence now h =>
      rcases challenge_result_ok_status h with ⟨h0, _⟩
      rcases h0 with h0 | h0
      · exact Or.inr (Or.inr (Or.inl h0))
      · exact Or.inr (Or.inr (Or.inr (Or.inr h0)))

  | resolve ch ch2 kg dao task_id challenger resolution now h =>
      rcases resolve_challenge_ok_status h with ⟨h0, _⟩
      exact Or.inr (Or.inr (Or.inr (Or.inl h0)))
  | finalize authority task_id now h =>
      rcases finalize_task_ok_status h with ⟨h0, _⟩
      exact Or.inr (Or.inr (Or.inl h0))

/-- Along any chain of successful instructions that starts outside the
after-Verifying statuses, any state holding an after-Verifying status is
preceded by a state in status Verifying. -/
theorem chain_verifying_before (l : List TroTask) :
    ∀ t0 : TroTask, List.Chain TaskStep t0 l → ¬ afterVerifying t0.status →
      ∀ pre suf : List TroTask, ∀ tf : TroTask,
        t0 :: l = pre ++ tf :: suf → afterVerifying tf.status →
        TaskStatus.Verifying ∈ pre.map TroTask.status := by
  induction l with
  | nil =>
      intro t0 _ h0 pre suf tf hsplit hf
      rcases pre with _ | ⟨p0, pre2⟩
      · simp at hsplit
        rcases hsplit with ⟨h1, _⟩
        exact absurd (h1 ▸ hf) h0
      · simp at hsplit
  | cons t1 l2 ih =>
      intro t0 hchain h0 pre suf tf hsplit hf
      rw [List.chain_cons] at hchain
      rcases hchain with ⟨hstep, hchain2⟩
      rcases pre with _ | ⟨p0, pre2⟩
      · simp at hsplit
        rcases hsplit with ⟨h1, _⟩
        exact absurd (h1 ▸ hf) h0
      · simp at hsplit
        rcases hsplit with ⟨hp0, hrest⟩
        by_cases haf : afterVerifying t1.status
        · rcases taskStep_afterVerifying hstep haf with hv | hv
          · simp [← hp0, hv]
          · exact absurd hv h0
        · have := ih t1 hchain2 haf pre2 suf tf hrest hf
          simp [this]


/-- C1: starting from a newly submitted task in status Pending, no
sequence of successful on-chain task operations (claim_task,
submit_reasoning, submit_verification, submit_proof, challenge_result,
resolve_challenge, finalize_task) brings the task to status Finalized
without the task having been in status Verifying at an earlier point of
the sequence. -/
theorem C1_finalized_requires_verifying (t0 : TroTask) (l : List TroTask)
    (hchain : List.Chain TaskStep t0 l) (h0 : t0.status = TaskStatus.Pending)
    (pre suf : List TroTask) (tf : TroTask) (hsplit : t0 :: l = pre ++ tf :: suf)
    (hf : tf.status = TaskStatus.Finalized) :
    TaskStatus.Verifying ∈ pre.map TroTask.status :=
  chain_verifying_before l t0 hchain (by simp [afterVerifying, h0]) pre suf tf
    hsplit (by simp [afterVerifying, hf])

/-- C1 witness: the concrete run c1Task0..c1Task4 reaches Finalized, and
the theorem places Verifying among the earlier states. -/
theorem C1_witness :
    TaskStatus.Verifying ∈
      ([c1Task0, c1Task1, c1Task2, c1Task3].map TroTask.status) :=
  C1_finalized_requires_verifying c1Task0 [c1Task1, c1Task2, c1Task3, c1Task4]
    (List.Chain.cons (TaskStep.claim c1Node c1Node1 5 10 (by decide))
      (List.Chain.cons
        (TaskStep.reason c1Node1 c1Node2 c1Inf 5 "r" "m2" "c" 8000 false 20
          (by decide))
        (List.Chain.cons (TaskStep.verify kgZero c1Kg1 3 5 9000 0 0 0 "" 30 0
          (by decide))
          (List.Chain.cons (TaskStep.finalize 1 5 2000 (by decide))
            List.Chain.nil))))
    (by decide) [c1Task0, c1Task1, c1Task2, c1Task3] [] c1Task4 rfl (by decide)

/-- satAdd64 is exact addition below the u64 bound. -/
theorem satAdd64_of_le {a b : Nat} (h : a + b ≤ u64max) : satAdd64 a b = a + b :=
  min_eq_left h

/-- satMul64 is exact multiplication below the u64 bound. -/
theorem satMul64_of_le {a b : Nat} (h : a * b ≤ u64max) : satMul64 a b = a * b :=
  min_eq_left h

/-- Characterization of a successful Except.map. -/
theorem map_ok {α β : Type} (f : α → β) (x : Except ErrorCode α) (y : β) :
    x.map f = Except.ok y ↔ ∃ a, x = Except.ok a ∧ f a = y := by
  cases x <;> simp [Except.map]

/-- An error is never a success. -/
theorem error_ne_ok {α : Type} (e : ErrorCode) (y : α) :
    (Except.error e : Except ErrorCode α) ≠ Except.ok y :=
  fun h => Except.noConfusion h

/-- A successful checked i64 addition returns the exact sum. -/
theorem checkedAddI64_some {a b v : Int} (h : checkedAddI64 a b = some v) :
    v = a + b := by
  unfold checkedAddI64 at h
  split_ifs at h <;> simp_all

/-- C2 counterexample: with task 7 already claimed by node 2 (the task
is in Reasoning and node 2 has active_task_id = 7), a claim_task call
by the distinct idle node 3 succeeds instead of failing, after which
both registered nodes hold active_task_id = 7. -/
theorem C2_counterexample :
    claim_task c2NodeA c2Task0 7 5 = Except.ok (c2NodeA1, c2TaskR) ∧
    claim_task c2NodeB c2TaskR 7 6 = Except.ok (c2NodeB1, c2TaskR2) ∧
    c2NodeA1.active_task_id = 7 ∧ c2NodeB1.active_task_id = 7 ∧
    c2NodeA1.owner ≠ c2NodeB1.owner := by decide

/-- C2 amended: claim_task succeeds exactly when the node is Active,
the task status is Pending or Reasoning, the node's stake covers
min_node_stake, and the node is idle or already assigned this task; on
success the claiming node records the task id and the task is in
Reasoning.  In particular a task in Reasoning (already claimed) can be
claimed again by any other qualifying node, so at most one holder of
active_task_id = T is not guaranteed. -/
theorem C2_claim_success_iff (node : ReasoningNode) (task : TroTask)
    (task_id : Nat) (now : Int) :
    ((∃ r, claim_task node task task_id now = Except.ok r) ↔
      (node.status = NodeLifecycleStatus.Active ∧
       (task.status = TaskStatus.Pending ∨ task.status = TaskStatus.Reasoning) ∧
       task.min_node_stake ≤ node.stake_amount ∧
       (node.active_task_id = 0 ∨ node.active_task_id = task_id))) ∧
    (∀ node2 task2, claim_task node task task_id now = Except.ok (node2, task2) →
      node2.active_task_id = task_id ∧ task2.status = TaskStatus.Reasoning) := by
  constructor
  · constructor
    · rintro ⟨r, hr⟩
      unfold claim_task require at hr
      split_ifs at hr <;> simp_all [ok_bind, error_bind]
    · rintro ⟨h1, h2, h3, h4⟩
      unfold claim_task require
      rw [if_pos h1, ok_bind, if_pos h2, ok_bind, if_pos h3, ok_bind,
        if_pos h4, ok_bind]
      exact ⟨_, rfl⟩
  · intro node2 task2 h
    unfold claim_task require at h
    split_ifs at h <;> simp_all [ok_bind, error_bind]
    obtain ⟨h1, h2⟩ := h
    subst h1
    subst h2
    exact ⟨rfl, rfl⟩

/-- C2 witness: node 3 claiming the already-claimed Reasoning task 7
satisfies the success characterization, and node 2 still records the
task. -/
theorem C2_witness :
    (∃ r, claim_task c2NodeB c2TaskR 7 6 = Except.ok r) ∧
    c2TaskR.status = TaskStatus.Reasoning ∧ c2NodeA1.active_task_id = 7 :=
  ⟨(C2_claim_success_iff c2NodeB c2TaskR 7 6).1.mpr (by decide), by decide,
    by decide⟩

/-- C3 counterexample: starting from a state satisfying the claimed
conservation equation (all counters zero), queue_reward_settlement of
10000 lamports for a freshly registered node (reputation 6000 bps,
dynamic multiplier 10000 bps) credits 16000 lamports of pending rewards
while accruing only 10000, breaking the equation. -/
theorem C3_counterexample :
    econ_equation c3S0 ∧
    applyEconOp c3Op c3S0 = Except.ok c3S1 ∧
    ¬ econ_equation c3S1 := by decide

/-- C3 amended: settle_reward and slash_malicious_node preserve the
conservation equation, and queue_reward_settlement preserves it exactly
when the node's performance factor max(reputation + multiplier, BPS)
equals the BPS denominator (reputation_bps + dynamic_multiplier_bps at
most 10000); in general it credits amount times that factor over BPS,
which exceeds the amount accrued.  Saturation-freedom hypotheses make
the modelled u64 arithmetic exact. -/
theorem C3_amended_preservation (op : EconOp) (s s2 : EconState)
    (hok : applyEconOp op s = Except.ok s2) (hinv : econ_equation s)
    (hsat : econ_no_saturation op s) (hfair : econ_queue_fair op s) :
    econ_equation s2 := by
  cases op with
  | queue node_owner task_id amount slot =>
      simp only [applyEconOp] at hok
      rw [map_ok] at hok
      obtain ⟨⟨t2, n2, rv2⟩, hq, hs2⟩ := hok
      subst hs2
      simp only [econ_no_saturation] at hsat
      simp only [econ_queue_fair] at hfair
      unfold queue_reward_settlement require at hq
      split_ifs at hq <;> simp only [ok_bind, error_bind] at hq <;> simp at hq
      obtain ⟨ht, hn, hrv⟩ := hq
      subst ht
      subst hn
      subst hrv
      obtain ⟨hs1, hs2, hs3⟩ := hsat
      have hmaxeq : max (s.node.reputation_score_bps +
          s.node.dynamic_multiplier_bps) BPS_DENOMINATOR = BPS_DENOMINATOR :=
        max_eq_right hfair
      unfold econ_equation at hinv ⊢
      simp only [hmaxeq] at hs2 hs3 ⊢
      rw [satMul64_of_le hs2]
      have hdiv : amount * BPS_DENOMINATOR / BPS_DENOMINATOR = amount := by
        unfold BPS_DENOMINATOR
        omega
      rw [hdiv] at hs3 ⊢
      rw [satAdd64_of_le hs1, satAdd64_of_le hs3]
      push_cast
      omega
  | settle dao node_owner now =>
      simp only [applyEconOp] at hok
      rw [map_ok] at hok
      obtain ⟨⟨n2, rv2⟩, hq, hs2⟩ := hok
      subst hs2
      simp only [econ_no_saturation] at hsat
      unfold settle_reward require at hq
      split_ifs at hq <;> simp only [ok_bind, error_bind] at hq <;> simp at hq
      obtain ⟨hn, hrv⟩ := hq
      subst hn
      subst hrv
      unfold econ_equation at hinv ⊢
      rw [satAdd64_of_le hsat]
      have hple : min s.node.pending_rewards s.reward_vault.lamports ≤
          s.node.pending_rewards := min_le_left _ _
      generalize min s.node.pending_rewards s.reward_vault.lamports = p at hple ⊢
      push_cast
      omega
  | slash dao node_owner slash_amount suspend =>
      simp only [applyEconOp] at hok
      rw [map_ok] at hok
      obtain ⟨⟨n2, sv2, rv2, ec2⟩, hq, hs2⟩ := hok
      subst hs2
      simp only [econ_no_saturation] at hsat
      unfold slash_malicious_node require at hq
      split_ifs at hq <;> simp only [ok_bind, error_bind] at hq <;> simp at hq
      all_goals (
        obtain ⟨hn, hsv, hrv, hec⟩ := hq
        subst hn
        subst hsv
        subst hrv
        subst hec
        obtain ⟨hs1, hs2⟩ := hsat
        unfold econ_equation at hinv ⊢
        rw [satAdd64_of_le hs1, satAdd64_of_le hs2]
        push_cast
        omega)

/-- C3 witness: a settlement of pending rewards against a
partially-funded vault, checked to preserve the conservation equation
through the amended theorem. -/
theorem C3_witness :
    applyEconOp c3WOp c3WS0 = Except.ok c3WS1 ∧ econ_equation c3WS0 ∧
      econ_equation c3WS1 :=
  ⟨by decide, by decide,
    C3_amended_preservation c3WOp c3WS0 c3WS1 (by decide) (by decide)
      (by decide) (by decide)⟩

/-- C4 counterexample: task 9 is submitted at time 0 with the maximal
7-day challenge window (so its window is in bounds), claimed and
reasoned at time 0, and then submit_verification at time 1 re-bases the
window at the verification instant, setting challenge_period_end to
created_ts + 7 days + 1 second - beyond the claimed upper bound. -/
theorem C4_counterexample :
    submit_intent_task 1 0 9 "demo" TaskType.SimpleQa WorkflowClass.Balanced
      TaskCriticality.Standard 0 0 10 "m" 604800 = Except.ok c4Task0 ∧
    claim_task c4Node c4Task0 9 0 = Except.ok (c4Node1, c4Task1) ∧
    submit_reasoning c4Node1 c4Task1 9 "r" "m" "c" 8000 false 0 =
      Except.ok (c4Node2, c4Task2, c4Inf) ∧
    submit_verification c4Task2 kgZero 3 9 9000 0 0 0 "" 1 0 =
      Except.ok (c4Task3, c4Kg1) ∧
    c4Task3.created_ts = c4Task0.created_ts ∧
    MAX_CHALLENGE_WINDOW < c4Task3.challenge_period_end - c4Task3.created_ts := by
  decide

/-- C4 amended: submit_intent_task rejects a challenge window outside
[1800 s, 7 days] with InvalidChallengeWindow (given the length checks
that precede it pass) and creates the task with challenge_period_end -
created_ts within those bounds; submit_verification keeps created_ts
and re-bases the window at the verification time, guaranteeing
challenge_period_end at least created_ts + 1800 s whenever the clock is
not before created_ts, but it can push challenge_period_end beyond
created_ts + 7 days. -/
theorem C4_amended_window_bounds :
    (∀ (submitter : Nat) (now : Int) (task_id : Nat) (intent : String)
        (task_type : TaskType) (rwf : WorkflowClass) (crit : TaskCriticality)
        (comp sp mns : Nat) (mh : String) (w : Int),
      intent.length ≤ INTENT_MAX_LEN → mh.length ≤ HASH_MAX_LEN →
      (w < MIN_CHALLENGE_WINDOW ∨ MAX_CHALLENGE_WINDOW < w) →
      submit_intent_task submitter now task_id intent task_type rwf crit comp
          sp mns mh w = Except.error ErrorCode.InvalidChallengeWindow) ∧
    (∀ (submitter : Nat) (now : Int) (task_id : Nat) (intent : String)
        (task_type : TaskType) (rwf : WorkflowClass) (crit : TaskCriticality)
        (comp sp mns : Nat) (mh : String) (w : Int) (t : TroTask),
      submit_intent_task submitter now task_id intent task_type rwf crit comp
          sp mns mh w = Except.ok t →
      MIN_CHALLENGE_WINDOW ≤ t.challenge_period_end - t.created_ts ∧
      t.challenge_period_end - t.created_ts ≤ MAX_CHALLENGE_WINDOW) ∧
    (∀ (task : TroTask) (kg : KnowledgeGraphState)
        (verifier task_id score ed rd root : Nat) (uri : String) (now : Int)
        (slot : Nat) (t2 : TroTask) (kg2 : KnowledgeGraphState),
      submit_verification task kg verifier task_id score ed rd root uri now
          slot = Except.ok (t2, kg2) →
      t2.created_ts = task.created_ts ∧
      (task.created_ts ≤ now →
        task.created_ts + MIN_CHALLENGE_WINDOW ≤ t2.challenge_period_end)) := by
  refine ⟨?_, ?_, ?_⟩
  · intro submitter now task_id intent task_type rwf crit comp sp mns mh w
      hi hm hw
    unfold submit_intent_task enforce_len require
    rw [if_pos hi, ok_bind, if_pos hm, ok_bind,
      if_neg (by
        unfold MIN_CHALLENGE_WINDOW at hw ⊢
        unfold MAX_CHALLENGE_WINDOW at hw ⊢
        omega),
      error_bind]
  · intro submitter now task_id intent task_type rwf crit comp sp mns mh w t h
    unfold submit_intent_task enforce_len require at h
    split_ifs at h <;> simp only [ok_bind, error_bind] at h
    all_goals try exact absurd h (error_ne_ok _ _)
    all_goals (
      rw [orOverflow_bind] at h
      obtain ⟨v, hv, hlit⟩ := h
      have hveq := checkedAddI64_some hv
      subst hveq
      simp only [Except.ok.injEq] at hlit
      subst hlit
      dsimp only
      omega)
  · intro task kg verifier task_id score ed rd root uri now slot t2 kg2 h
    unfold submit_verification enforce_len require at h
    split_ifs at h <;> simp only [ok_bind, error_bind] at h
    all_goals try exact absurd h (error_ne_ok _ _)
    all_goals (
      rw [orOverflow_bind] at h
      obtain ⟨v, hv, hlit⟩ := h
      have hveq := checkedAddI64_some hv
      subst hveq
      simp only [Except.ok.injEq, Prod.mk.injEq] at hlit
      obtain ⟨ht2, hkg2⟩ := hlit
      subst ht2
      constructor
      · rfl
      · intro hts
        have hmax := le_max_right
          ((checkedSubI64 task.challenge_period_end task.created_ts).getD
            MIN_CHALLENGE_WINDOW) MIN_CHALLENGE_WINDOW
        dsimp only
        omega)

/-- C4 witness: an 100-second window is rejected, and the concrete
verification of the C4 run keeps created_ts and the 1800-second lower
bound. -/
theorem C4_witness :
    submit_intent_task 1 0 3 "x" TaskType.SimpleQa WorkflowClass.Balanced
      TaskCriticality.Standard 0 0 0 "" 100 =
      Except.error ErrorCode.InvalidChallengeWindow ∧
    (c4Task3.created_ts = c4Task2.created_ts ∧
      (c4Task2.created_ts ≤ 1 →
        c4Task2.created_ts + MIN_CHALLENGE_WINDOW ≤ c4Task3.challenge_period_end)) :=
  ⟨C4_amended_window_bounds.1 1 0 3 "x" TaskType.SimpleQa WorkflowClass.Balanced
      TaskCriticality.Standard 0 0 0 "" 100 (by decide) (by decide) (by decide),
    C4_amended_window_bounds.2.2 c4Task2 kgZero 3 9 9000 0 0 0 "" 1 0 c4Task3
      c4Kg1 (by decide)⟩

/-- C9: for a task with requires_proof = false in status Verifying,
submit_proof succeeds under any policy with min_verifiers at least 1
and moves the task straight to ReadyForExecution with
verification_score_bps still 0 - no submit_verification call is needed
to reach ReadyForExecution. -/
theorem C9_submit_proof_skips_verification (task : TroTask)
    (prover task_id ph : Nat) (policy : ProofPolicy) (mc : ModelCapability)
    (w : WorkflowClass) (now : Int)
    (hreq : task.requires_proof = false)
    (hst : task.status = TaskStatus.Verifying)
    (hmv : 1 ≤ policy.min_verifiers)
    (hscore : task.verification_score_bps = 0) :
    ∃ t2 reg, submit_proof task prover task_id ph policy mc w now =
        Except.ok (t2, reg) ∧
      t2.status = TaskStatus.ReadyForExecution ∧
      t2.verification_score_bps = 0 := by
  unfold submit_proof require
  rw [if_pos (show 0 < policy.min_verifiers from hmv), ok_bind,
    if_pos (Or.inr ⟨by simp [hreq], hst⟩), ok_bind]
  exact ⟨_, _, rfl, rfl, hscore⟩

/-- C9 witness: the concrete Verifying task 11 with a minimal policy. -/
theorem C9_witness :
    ∃ t2 reg, submit_proof c9Task 5 11 42 c9Policy ModelCapability.Local7B
        WorkflowClass.Balanced 100 = Except.ok (t2, reg) ∧
      t2.status = TaskStatus.ReadyForExecution ∧
      t2.verification_score_bps = 0 :=
  C9_submit_proof_skips_verification c9Task 5 11 42 c9Policy
    ModelCapability.Local7B WorkflowClass.Balanced 100 (by decide) (by decide)
    (by decide) (by decide)

/-- C10: submit_intent_task with an empty intent (and otherwise valid
arguments) succeeds, stores intent = "no-intent-provided", and
initializes every other field exactly as the same call with a non-empty
intent would. -/
theorem C10_empty_intent_defaulted (submitter : Nat) (now : Int)
    (task_id : Nat) (intent : String) (task_type : TaskType)
    (rwf : WorkflowClass) (crit : TaskCriticality) (comp sp mns : Nat)
    (mh : String) (w : Int)
    (hmh : mh.length ≤ HASH_MAX_LEN)
    (hw : MIN_CHALLENGE_WINDOW ≤ w ∧ w ≤ MAX_CHALLENGE_WINDOW)
    (hadd : i64min ≤ now + w ∧ now + w ≤ i64max)
    (hi : intent.length ≤ INTENT_MAX_LEN) (hne : intent ≠ "") :
    ∃ t, submit_intent_task submitter now task_id "" task_type rwf crit comp
        sp mns mh w = Except.ok t ∧
      t.intent = "no-intent-provided" ∧
      submit_intent_task submitter now task_id intent task_type rwf crit comp
          sp mns mh w = Except.ok { t with intent := intent } := by
  have h0 : ("" : String).length ≤ INTENT_MAX_LEN := by decide
  have hca : checkedAddI64 now w = some (now + w) := by
    unfold checkedAddI64
    rw [if_pos hadd]
  unfold submit_intent_task enforce_len require
  rw [hca]
  simp only [if_pos h0, if_pos hi, if_pos hmh, if_pos hw, ok_bind, orOverflow,
    if_neg hne]
  exact ⟨_, rfl, rfl, rfl⟩

/-- C10 witness: an empty intent at a concrete argument vector, paired
with the same call carrying the intent "hello". -/
theorem C10_witness :
    ∃ t, submit_intent_task 1 0 3 "" TaskType.SimpleQa WorkflowClass.Balanced
        TaskCriticality.Standard 0 0 0 "m" 1800 = Except.ok t ∧
      t.intent = "no-intent-provided" ∧
      submit_intent_task 1 0 3 "hello" TaskType.SimpleQa WorkflowClass.Balanced
          TaskCriticality.Standard 0 0 0 "m" 1800 =
        Except.ok { t with intent := "hello" } :=
  C10_empty_intent_defaulted 1 0 3 "hello" TaskType.SimpleQa
    WorkflowClass.Balanced TaskCriticality.Standard 0 0 0 "m" 1800 (by decide)
    (by decide) (by decide) (by decide) (by decide)

end Chain

namespace Backend

/-- C5 counterexample: at workflow Standard and complexity 2500 with
every tier available, the router picks Local7B (2500 falls in the
source's bucket 0), while the claim's formula floor(2500/2500) = 1
selects Local13B. -/
theorem C5_counterexample :
    route WorkflowClass.Standard 2500 (fun _ => true) = ModelTier.Local7B ∧
    claim_route WorkflowClass.Standard 2500 = ModelTier.Local13B ∧
    route WorkflowClass.Standard 2500 (fun _ => true) ≠
      claim_route WorkflowClass.Standard 2500 := by
  decide

/-- C5 amended: with all tiers available the selected tier is the
claimed 4x4 matrix entry at (workflow, bucket) where the bucket is
min((complexity - 1) / 2500, 3) with truncated subtraction - that is,
0 for 0..2500, 1 for 2501..5000, 2 for 5001..7500 and 3 above, the
multiples of 2500 falling in the lower bucket. -/
theorem C5_amended_routing (w : WorkflowClass) (complexity : Nat) :
    route w complexity (fun _ => true) =
      claim_matrix w (amended_bucket complexity) := by
  have hb : complexity_bucket complexity = amended_bucket complexity := by
    unfold complexity_bucket amended_bucket
    split_ifs <;> omega
  have hle : amended_bucket complexity ≤ 3 := min_le_right _ _
  unfold route
  rw [hb]
  revert hle
  generalize amended_bucket complexity = b
  intro hle
  interval_cases b <;> cases w <;> rfl

/-- C6 counterexample: a 62-byte response containing the phrase
"possibly" twice loses 500 once in the source (one subtraction per
phrase that occurs), not 500 per occurrence as claimed. -/
theorem C6_counterexample :
    estimate_confidence ModelTier.Local7B c6Resp = 5500 ∧
    claim_confidence ModelTier.Local7B c6Resp = 5000 ∧
    estimate_confidence ModelTier.Local7B c6Resp ≠
      claim_confidence ModelTier.Local7B c6Resp := by
  decide

end Backend

/-- Char.toLower unfolded to its conditional form. -/
theorem char_toLower_eq (c : Char) :
    Char.toLower c =
      if 65 ≤ c.toNat ∧ c.toNat ≤ 90 then Char.ofNat (c.toNat + 32) else c :=
  rfl

/-- The code point of a lowercased character: basic latin uppercase
letters gain 32, everything else is unchanged. -/
theorem char_toLower_toNat (c : Char) :
    (Char.toLower c).toNat =
      if 65 ≤ c.toNat ∧ c.toNat ≤ 90 then c.toNat + 32 else c.toNat := by
  rw [char_toLower_eq]
  split_ifs with h
  · show (Char.ofNat (c.toNat + 32)).toNat = c.toNat + 32
    unfold Char.ofNat
    rw [dif_pos (Or.inl (by omega))]
    rfl
  · rfl

/-- Char.toLower never yields a basic latin uppercase letter. -/
theorem toLower_ne_of_upper {c d : Char} (h1 : 65 ≤ d.toNat)
    (h2 : d.toNat ≤ 90) : Char.toLower c ≠ d := by
  intro heq
  have hn := char_toLower_toNat c
  rw [heq] at hn
  split_ifs at hn <;> omega

/-- A basic latin uppercase letter never occurs in a lowercased list. -/
theorem not_mem_lowerStr_of_upper (l : List Char) (d : Char)
    (h1 : 65 ≤ d.toNat) (h2 : d.toNat ≤ 90) : d ∉ lowerStr l := by
  intro hmem
  unfold lowerStr at hmem
  rw [List.mem_map] at hmem
  obtain ⟨c, _, hc⟩ := hmem
  exact toLower_ne_of_upper h1 h2 hc

/-- A successful findSub implies every pattern character occurs in the
haystack. -/
theorem findSub_some_subset : ∀ (hay pat : List Char) (i : Nat),
    findSub hay pat = some i → ∀ d ∈ pat, d ∈ hay := by
  intro hay
  induction hay with
  | nil =>
      intro pat i h d hd
      unfold findSub at h
      split_ifs at h with hp
      · rw [List.isEmpty_iff] at hp
        subst hp
        exact absurd hd (List.not_mem_nil d)
  | cons c rest ih =>
      intro pat i h d hd
      unfold findSub at h
      split_ifs at h with hp
      · exact (List.isPrefixOf_iff_prefix.mp hp).subset hd
      · rcases hfs : findSub rest pat with _ | j
        · rw [hfs] at h
          simp at h
        · exact List.mem_cons_of_mem _ (ih pat j hfs d hd)

/-- Folding the per-phrase 500-point penalty equals subtracting 500 per
phrase that occurs. -/
theorem foldl_phrase_sub (hay : List Char) : ∀ (l : List String) (c : Nat),
    l.foldl (fun acc p => if containsSub hay p.data then acc - 500 else acc)
        c =
      c - 500 * (l.filter (fun p => containsSub hay p.data)).length := by
  intro l
  induction l with
  | nil => intro c; simp
  | cons a l2 ih =>
      intro c
      rw [List.foldl_cons, List.filter_cons]
      by_cases h : containsSub hay a.data = true
      · rw [if_pos h, if_pos h, ih]
        simp only [List.length_cons]
        omega
      · rw [if_neg h, if_neg h, ih]

/-- A pattern containing a basic latin uppercase letter is never found
in a lowercased haystack. -/
theorem containsSub_lower_eq_false (l pat : List Char) (d : Char)
    (hd : d ∈ pat) (h1 : 65 ≤ d.toNat) (h2 : d.toNat ≤ 90) :
    containsSub (lowerStr l) pat = false := by
  unfold containsSub
  rcases hfs : findSub (lowerStr l) pat with _ | i
  · rfl
  · exact absurd (findSub_some_subset (lowerStr l) pat i hfs d hd)
      (not_mem_lowerStr_of_upper l d h1 h2)

namespace Backend

/-- C6 amended: estimate_confidence subtracts 500 once per uncertainty
phrase that occurs in the lowercased result (each phrase matched
verbatim), with the short-result penalty and the 0..10000 clamp as
claimed; moreover the phrases "I'm not sure" and "I don't know", whose
uppercase I survives in the phrase but never occurs in the lowercased
result, can never match. -/
theorem C6_amended_confidence (tier : ModelTier) (response : String) :
    estimate_confidence tier response = amended_confidence tier response ∧
    containsSub (lowerStr response.data) phraseNotSure.data = false ∧
    containsSub (lowerStr response.data) phraseDontKnow.data = false := by
  refine ⟨?_, ?_, ?_⟩
  · unfold estimate_confidence amended_confidence uncertain_phrases
    simp only [foldl_phrase_sub]
  · exact containsSub_lower_eq_false response.data phraseNotSure.data 'I'
      (by decide) (by decide) (by decide)
  · exact containsSub_lower_eq_false response.data phraseDontKnow.data 'I'
      (by decide) (by decide) (by decide)

end Backend

namespace Cache

/-- search_step only ever stores non-expired entries. -/
theorem search_step_inv (threshold : ℚ) (query : String) (now : Int)
    (best : Option (ℚ × CacheEntry)) (entry : CacheEntry)
    (hb : ∀ p : ℚ × CacheEntry, best = some p → is_expired p.2 now = false) :
    ∀ p : ℚ × CacheEntry,
      search_step threshold query now best entry = some p →
        is_expired p.2 now = false := by
  intro p hp
  unfold search_step at hp
  by_cases h1 : is_expired entry now = true
  · rw [if_pos h1] at hp
    exact hb p hp
  · have h1f : is_expired entry now = false := by simpa using h1
    rw [if_neg h1] at hp
    dsimp only at hp
    split_ifs at hp with h2
    · cases best with
      | none =>
          dsimp only at hp
          simp only [Option.some.injEq] at hp
          rw [← hp]
          exact h1f
      | some q =>
          dsimp only at hp
          split_ifs at hp with h3
          · simp only [Option.some.injEq] at hp
            rw [← hp]
            exact h1f
          · exact hb p hp
    · exact hb p hp

/-- The best-match fold only ever returns non-expired entries. -/
theorem foldl_search_inv (threshold : ℚ) (query : String) (now : Int) :
    ∀ (l : List CacheEntry) (acc : Option (ℚ × CacheEntry)),
      (∀ p : ℚ × CacheEntry, acc = some p → is_expired p.2 now = false) →
      ∀ p : ℚ × CacheEntry,
        l.foldl (search_step threshold query now) acc = some p →
          is_expired p.2 now = false := by
  intro l
  induction l with
  | nil =>
      intro acc hacc p hp
      exact hacc p hp
  | cons a l2 ih =>
      intro acc hacc p hp
      exact ih _ (search_step_inv threshold query now acc a hacc) p hp

/-- semantic_search never returns an expired entry. -/
theorem semantic_search_not_expired (localCache : List (String × CacheEntry))
    (threshold : ℚ) (query : String) (now : Int) (e : CacheEntry)
    (h : semantic_search localCache threshold query now = some e) :
    is_expired e now = false := by
  unfold semantic_search at h
  rcases hf : (localCache.map Prod.snd).foldl (search_step threshold query now)
      none with _ | p
  · rw [hf] at h
    simp at h
  · rw [hf] at h
    simp at h
    rw [← h]
    exact foldl_search_inv threshold query now (localCache.map Prod.snd) none
      (by intro q hq; cases hq) p hf

/-- C7 amended: any entry returned by lookup - through the exact-hash
branch or the similarity branch - satisfies now ≤ expires_at; expired
entries (now strictly past expires_at) are never served.  At
now = expires_at the entry is not yet expired (is_expired uses a strict
comparison) and is served. -/
theorem C7_amended_no_expired_hit (localCache : List (String × CacheEntry))
    (threshold : ℚ) (query : String) (now : Int) (e : CacheEntry)
    (h : lookup localCache threshold query now = some e) :
    now ≤ e.expires_at := by
  unfold lookup at h
  dsimp only at h
  have hexp : is_expired e now = false → now ≤ e.expires_at := by
    intro hf
    unfold is_expired at hf
    simpa using hf
  rcases hfind : localCache.find? (fun p => p.1 == compute_query_hash query)
      with _ | q
  · rw [hfind] at h
    dsimp only at h
    rcases hsem : semantic_search localCache threshold query now with _ | e2
    · rw [hsem] at h
      cases h
    · rw [hsem] at h
      dsimp only at h
      split_ifs at h with hth
      simp only [Option.some.injEq] at h
      subst h
      exact hexp (semantic_search_not_expired _ _ _ _ _ hsem)
  · rw [hfind] at h
    dsimp only at h
    by_cases hq : is_expired q.2 now = true
    · rw [if_pos hq] at h
      dsimp only at h
      rcases hsem : semantic_search localCache threshold query now with _ | e2
      · rw [hsem] at h
        cases h
      · rw [hsem] at h
        dsimp only at h
        split_ifs at h with hth
        simp only [Option.some.injEq] at h
        subst h
        exact hexp (semantic_search_not_expired _ _ _ _ _ hsem)
    · rw [if_neg hq] at h
      dsimp only at h
      simp only [Option.some.injEq] at h
      subst h
      exact hexp (by simpa using hq)

/-- C7 counterexample: with entry c7Entry stored under its query hash
and expiring at time 100, a lookup at exactly now = 100 returns the
entry as a hit, where the claim requires a miss. -/
theorem C7_counterexample :
    (100 : Int) = c7Entry.expires_at ∧
    lookup [("q", c7Entry)] (95 / 100 : ℚ) "q" 100 = some c7Entry := by
  constructor
  · rfl
  · rfl

/-- C7 witness: a lookup at time 50 hits c7Entry, and the amended
theorem bounds the time by the entry expiry. -/
theorem C7_witness : (50 : Int) ≤ c7Entry.expires_at :=
  C7_amended_no_expired_hit [("q", c7Entry)] (95 / 100 : ℚ) "q" 50 c7Entry
    (by rfl)

end Cache

namespace KG

/-- C8 counterexample: on "Paris is in France" the source emits the
is_a triplet (via its bare " is " pattern) and the located_in triplet,
while the claim's first-matching-rule semantics with its narrower
pattern lists emits only the located_in triplet. -/
theorem C8_counterexample :
    extract_triplets "Paris is in France" =
      [{ subject := "Paris", predicate := "is_a", object := "in France",
         confidence := 7000, source := TripletSource.LLMExtraction },
       { subject := "Paris", predicate := "located_in", object := "France",
         confidence := 6500, source := TripletSource.LLMExtraction }] ∧
    claim_extract "Paris is in France" =
      [{ subject := "Paris", predicate := "located_in", object := "France",
         confidence := 6500, source := TripletSource.LLMExtraction }] ∧
    extract_triplets "Paris is in France" ≠
      claim_extract "Paris is in France" := by
  refine ⟨by decide, by decide, by decide⟩

/-- flatMap unfolded one step on a cons cell. -/
theorem flatMap_cons_eq {α β : Type} (a : α) (l : List α) (f : α → List β) :
    (a :: l).flatMap f = f a ++ l.flatMap f := rfl

/-- findSome? over a two-element list as nested matches. -/
theorem findSome?_pair {α β : Type} (f : α → Option β) (a b : α) :
    [a, b].findSome? f =
      match f a with
      | some r => some r
      | none =>
        match f b with
        | some r => some r
        | none => none := by
  show (match f a with
        | some r => some r
        | none => [b].findSome? f) = _
  cases f a with
  | some r => rfl
  | none =>
      show (match f b with
            | some r => some r
            | none => ([] : List α).findSome? f) = _
      cases f b <;> rfl

/-- The source's extract_equals_pattern coincides with the amended
equal_to rule (raw search for =, lowered search for " equals "). -/
theorem extract_equals_eq_rule (s : List Char) :
    extract_equals_pattern s =
      [((("=" : String), false)), (((" equals " : String), true))].findSome?
        (amended_slice s "equal_to" 9000) := by
  have hB : amended_slice s "equal_to" 9000 (" equals ", true) =
      slice_at_pattern s "equal_to" 9000 (" equals " : String).data := rfl
  have hA : amended_slice s "equal_to" 9000 ("=", false) =
      (match findSub s ['='] with
       | some idx =>
           if trimChars (s.take idx) ≠ [] ∧ trimChars (s.drop (idx + 1)) ≠ [] then
             some { subject := String.mk (trimChars (s.take idx)),
                    predicate := "equal_to",
                    object := String.mk (trimChars (s.drop (idx + 1))),
                    confidence := 9000, source := TripletSource.LLMExtraction }
           else none
       | none => none) := rfl
  rw [findSome?_pair, hA, hB]
  rcases hE : findSub s ['='] with _ | idx <;>
    simp only [extract_equals_pattern, hE]
  · cases slice_at_pattern s "equal_to" 9000 ((" equals " : String).data) <;> rfl
  · by_cases hc : trimChars (s.take idx) ≠ [] ∧ trimChars (s.drop (idx + 1)) ≠ []
    · simp only [if_pos hc]
    · simp only [if_neg hc]
      cases slice_at_pattern s "equal_to" 9000 ((" equals " : String).data) <;> rfl

/-- Per sentence, the four source extractors appended in order equal
the amended rule table applied in order. -/
theorem sentence_triplets_eq (s : List Char) :
    (extract_is_pattern s).toList ++ ((extract_location_pattern s).toList ++
      ((extract_has_pattern s).toList ++ (extract_equals_pattern s).toList)) =
    amended_rules.flatMap
      (fun r => (r.1.findSome? (amended_slice s r.2.1 r.2.2)).toList) := by
  have hR : amended_rules.flatMap
      (fun r => (r.1.findSome? (amended_slice s r.2.1 r.2.2)).toList) =
      ([((" is " : String), true), ((" is a " : String), true),
        ((" is an " : String), true), ((" are " : String), true)].findSome?
          (amended_slice s "is_a" 7000)).toList ++
      ((([((" located in " : String), true), ((" is in " : String), true),
          ((" in " : String), true), ((" capital of " : String), true)].findSome?
            (amended_slice s "located_in" 6500)).toList) ++
        ((([((" has " : String), true), ((" have " : String), true),
            ((" contains " : String), true)].findSome?
              (amended_slice s "has" 6000)).toList) ++
          ((([((("=" : String), false)), (((" equals " : String), true))].findSome?
              (amended_slice s "equal_to" 9000)).toList) ++ []))) := by
    rfl
  rw [hR]
  have h1 : extract_is_pattern s =
      [((" is " : String), true), ((" is a " : String), true),
        ((" is an " : String), true), ((" are " : String), true)].findSome?
        (amended_slice s "is_a" 7000) := rfl
  have h2 : extract_location_pattern s =
      [((" located in " : String), true), ((" is in " : String), true),
        ((" in " : String), true), ((" capital of " : String), true)].findSome?
        (amended_slice s "located_in" 6500) := rfl
  have h3 : extract_has_pattern s =
      [((" has " : String), true), ((" have " : String), true),
        ((" contains " : String), true)].findSome?
        (amended_slice s "has" 6000) := rfl
  rw [← h1, ← h2, ← h3, ← extract_equals_eq_rule]
  simp [List.append_assoc]

/-- The sentence fold of extract_triplets as a flatMap. -/
theorem foldl_sentences (l : List (List Char)) :
    ∀ init : List Triplet,
      l.foldl (fun triplets sentence =>
        let s := trimChars sentence
        if s = [] then triplets
        else
          triplets ++ (extract_is_pattern s).toList
            ++ (extract_location_pattern s).toList
            ++ (extract_has_pattern s).toList
            ++ (extract_equals_pattern s).toList) init =
      init ++ l.flatMap (fun sentence =>
        let s := trimChars sentence
        if s = [] then []
        else
          (extract_is_pattern s).toList ++
            ((extract_location_pattern s).toList ++
              ((extract_has_pattern s).toList ++
                (extract_equals_pattern s).toList))) := by
  induction l with
  | nil =>
      intro init
      simp
  | cons a l2 ih =>
      intro init
      rw [List.foldl_cons, flatMap_cons_eq, ih]
      by_cases hs : trimChars a = []
      · simp [hs]
      · simp [hs, List.append_assoc]

/-- C8 amended: extract_triplets splits on periods, trims, skips empty
sentences, and for each sentence appends the first-found-pattern
triplet of every one of the four rule families in order (is_a with
patterns " is ", " is a ", " is an ", " are "; located_in with
" located in ", " is in ", " in ", " capital of "; has; equal_to with a
raw = search then " equals "), all with source LLMExtraction. -/
theorem C8_amended_extraction (text : String) :
    extract_triplets text = amended_extract text := by
  unfold extract_triplets amended_extract
  rw [foldl_sentences, List.nil_append]
  have hfuns : (fun sentence : List Char =>
      let s := trimChars sentence
      if s = [] then ([] : List Triplet)
      else
        (extract_is_pattern s).toList ++
          ((extract_location_pattern s).toList ++
            ((extract_has_pattern s).toList ++
              (extract_equals_pattern s).toList))) =
      (fun sentence : List Char =>
        let s := trimChars sentence
        if s = [] then ([] : List Triplet)
        else amended_rules.flatMap
          (fun r => (r.1.findSome? (amended_slice s r.2.1 r.2.2)).toList)) := by
    funext sentence
    by_cases hs : trimChars sentence = [] <;>
      simp only [hs, if_true, if_false, if_pos, if_neg, sentence_triplets_eq]
  rw [hfuns]

end KG

end DaoLLM
